import Mathlib

/-!
Verification of the tamper-evident audit trail and snapshot-export subsystem
(audit_ledger.py, audit_snapshot.py, breakage.py, reports.py, models.py).

The Python sources are shallowly embedded: pure helpers become Lean
functions, database tables become lists carried in explicit state records,
and machine-level operations (SHA-256 over UTF-8 bytes) are implemented
concretely over `Nat` with explicit reductions modulo 2^32 / 2^8.
-/

namespace Deskly

/-! ### Bytes, hex digits and UTF-8 (the encodings used by `hashlib`) -/

/-- Lowercase hexadecimal digit for a value in `[0, 15]` (as produced by
Python's `hexdigest`). Inputs outside the range never occur for digest
bytes; the catch-all keeps the function total. -/
def hexChar (n : Nat) : Char :=
  match n with
  | 0 => '0' | 1 => '1' | 2 => '2' | 3 => '3'
  | 4 => '4' | 5 => '5' | 6 => '6' | 7 => '7'
  | 8 => '8' | 9 => '9' | 10 => 'a' | 11 => 'b'
  | 12 => 'c' | 13 => 'd' | 14 => 'e' | _ => 'f'

/-- Two lowercase hex digits of one byte. -/
def byteToHex (b : Nat) : List Char :=
  [hexChar (b / 16), hexChar (b % 16)]

/-- Lowercase hex rendering of a byte list, as `bytes.hex()` /
`hashlib.sha256(...).hexdigest()` produce. -/
def bytesToHex (bs : List Nat) : String :=
  String.mk (bs.foldr (fun b acc => byteToHex b ++ acc) [])

/-- UTF-8 encoding of one Unicode code point (1-4 bytes). -/
def utf8EncodeChar (c : Nat) : List Nat :=
  if c < 128 then [c]
  else if c < 2048 then [192 + c / 64, 128 + c % 64]
  else if c < 65536 then [224 + c / 4096, 128 + (c / 64) % 64, 128 + c % 64]
  else [240 + c / 262144, 128 + (c / 4096) % 64, 128 + (c / 64) % 64, 128 + c % 64]

/-- UTF-8 encoding of a string (Python's `str.encode('utf-8')`). -/
def utf8Encode (s : String) : List Nat :=
  s.data.foldr (fun c acc => utf8EncodeChar c.toNat ++ acc) []

/-! ### SHA-256 (FIPS 180-4), over byte lists, words as `Nat` mod 2^32 -/

/-- Right rotation of a 32-bit word. -/
def rotr (n x : Nat) : Nat :=
  ((x >>> n) ||| (x <<< (32 - n))) % 4294967296

/-- SHA-256 `Ch` function. -/
def shaCh (x y z : Nat) : Nat := (x &&& y) ^^^ ((4294967295 ^^^ x) &&& z)

/-- SHA-256 `Maj` function. -/
def shaMaj (x y z : Nat) : Nat := (x &&& y) ^^^ (x &&& z) ^^^ (y &&& z)

/-- SHA-256 big sigma 0. -/
def bsig0 (x : Nat) : Nat := rotr 2 x ^^^ rotr 13 x ^^^ rotr 22 x

/-- SHA-256 big sigma 1. -/
def bsig1 (x : Nat) : Nat := rotr 6 x ^^^ rotr 11 x ^^^ rotr 25 x

/-- SHA-256 small sigma 0. -/
def ssig0 (x : Nat) : Nat := rotr 7 x ^^^ rotr 18 x ^^^ (x >>> 3)

/-- SHA-256 small sigma 1. -/
def ssig1 (x : Nat) : Nat := rotr 17 x ^^^ rotr 19 x ^^^ (x >>> 10)

/-- The 64 SHA-256 round constants. -/
def shaK : List Nat :=
  [1116352408, 1899447441, 3049323471, 3921009573, 961987163,
   1508970993, 2453635748, 2870763221, 3624381080, 310598401,
   607225278, 1426881987, 1925078388, 2162078206, 2614888103,
   3248222580, 3835390401, 4022224774, 264347078, 604807628,
   770255983, 1249150122, 1555081692, 1996064986, 2554220882,
   2821834349, 2952996808, 3210313671, 3336571891, 3584528711,
   113926993, 338241895, 666307205, 773529912, 1294757372,
   1396182291, 1695183700, 1986661051, 2177026350, 2456956037,
   2730485921, 2820302411, 3259730800, 3345764771, 3516065817,
   3600352804, 4094571909, 275423344, 430227734, 506948616,
   659060556, 883997877, 958139571, 1322822218, 1537002063,
   1747873779, 1955562222, 2024104815, 2227730452, 2361852424,
   2428436474, 2756734187, 3204031479, 3329325298]

/-- The eight 32-bit words of a SHA-256 hash state. -/
structure Sha256State where
  a : Nat
  b : Nat
  c : Nat
  d : Nat
  e : Nat
  f : Nat
  g : Nat
  h : Nat
deriving Repr, DecidableEq

/-- SHA-256 initial hash value. -/
def shaInit : Sha256State :=
  ⟨1779033703, 3144134277, 1013904242, 2773480762,
   1359893119, 2600822924, 528734635, 1541459225⟩

/-- Group bytes into 32-bit big-endian words. -/
def bytesToWords : List Nat → List Nat
  | b0 :: b1 :: b2 :: b3 :: rest =>
      (((b0 * 256 + b1) * 256 + b2) * 256 + b3) :: bytesToWords rest
  | _ => []

/-- Append the next word of the SHA-256 message schedule. -/
def schedStep (ws : List Nat) : List Nat :=
  let i := ws.length
  ws ++ [(ssig1 (ws.getD (i - 2) 0) + ws.getD (i - 7) 0 +
          ssig0 (ws.getD (i - 15) 0) + ws.getD (i - 16) 0) % 4294967296]

/-- Extend the message schedule by `n` further words. -/
def schedExtend : Nat → List Nat → List Nat
  | 0, ws => ws
  | n + 1, ws => schedExtend n (schedStep ws)

/-- One SHA-256 compression round, fed a (constant, schedule word) pair. -/
def shaRound (st : Sha256State) (kw : Nat × Nat) : Sha256State :=
  let t1 := (st.h + bsig1 st.e + shaCh st.e st.f st.g + kw.1 + kw.2) % 4294967296
  let t2 := (bsig0 st.a + shaMaj st.a st.b st.c) % 4294967296
  ⟨(t1 + t2) % 4294967296, st.a, st.b, st.c,
   (st.d + t1) % 4294967296, st.e, st.f, st.g⟩

/-- Compress one 64-byte block into the running hash state. -/
def compressBlock (h0 : Sha256State) (block : List Nat) : Sha256State :=
  let ws := schedExtend 48 (bytesToWords block)
  let st := (shaK.zip ws).foldl shaRound h0
  ⟨(h0.a + st.a) % 4294967296, (h0.b + st.b) % 4294967296,
   (h0.c + st.c) % 4294967296, (h0.d + st.d) % 4294967296,
   (h0.e + st.e) % 4294967296, (h0.f + st.f) % 4294967296,
   (h0.g + st.g) % 4294967296, (h0.h + st.h) % 4294967296⟩

/-- Big-endian 8-byte rendering of the message bit length. -/
def be64 (n : Nat) : List Nat :=
  [(n >>> 56) % 256, (n >>> 48) % 256, (n >>> 40) % 256, (n >>> 32) % 256,
   (n >>> 24) % 256, (n >>> 16) % 256, (n >>> 8) % 256, n % 256]

/-- SHA-256 padding: a 0x80 byte, zeros to 56 mod 64, then the bit length. -/
def shaPad (msg : List Nat) : List Nat :=
  msg ++ 128 :: (List.replicate ((119 - msg.length % 64) % 64) 0 ++ be64 (8 * msg.length))

/-- Split a (padded) message into its 64-byte blocks. -/
def toBlocks (l : List Nat) : List (List Nat) :=
  (List.range (l.length / 64)).map (fun i => (l.drop (64 * i)).take 64)

/-- Big-endian bytes of one 32-bit word. -/
def wordBe (w : Nat) : List Nat :=
  [(w >>> 24) % 256, (w >>> 16) % 256, (w >>> 8) % 256, w % 256]

/-- The 32 digest bytes of a final hash state. -/
def digestBytes (st : Sha256State) : List Nat :=
  wordBe st.a ++ wordBe st.b ++ wordBe st.c ++ wordBe st.d ++
  wordBe st.e ++ wordBe st.f ++ wordBe st.g ++ wordBe st.h

/-- SHA-256 digest (32 bytes) of a byte list. -/
def sha256 (msg : List Nat) : List Nat :=
  digestBytes ((toBlocks (shaPad msg)).foldl compressBlock shaInit)

/-- Lowercase-hex SHA-256 of the UTF-8 encoding of a string: the composite
`hashlib.sha256(s.encode('utf-8')).hexdigest()` used throughout the code. -/
def sha256HexOfString (s : String) : String :=
  bytesToHex (sha256 (utf8Encode s))

/-! ### Python value helpers

Python truthiness for the strings and optionals this code branches on:
`None` and the empty string are falsy, everything else truthy. -/

/-- Python `x or ''` for an optional string (`None` and `''` both yield `''`,
which coincides with `Option.getD`). -/
def pyStrOr (x : Option String) : String := x.getD ("")

/-- Python `s or None` applied when storing a possibly-empty string in a
nullable column: the empty string is normalized to `None`. -/
def strOrNone (s : String) : Option String :=
  if s = "" then none else some s

/-- Python `str(x)` for an optional integer, with `'' if x is None` as in
`_compute_entry_hash` (`safe_entity` / `safe_actor`). -/
def intOrEmpty (x : Option Int) : String :=
  match x with
  | none => ""
  | some v => toString v

/-- Python `str.strip()` (default whitespace), implemented structurally on
the character list so the kernel can evaluate it. -/
def pyStrip (s : String) : String :=
  String.mk (((s.data.dropWhile Char.isWhitespace).reverse.dropWhile
    Char.isWhitespace).reverse)

/-- Python `str.lower()` (ASCII-relevant part), structurally. -/
def pyLower (s : String) : String :=
  String.mk (s.data.map Char.toLower)

/-- Replace every non-overlapping occurrence of `pat` (nonempty in all
uses) left to right, as Python `str.replace`; fuel-structural so the
kernel can evaluate it. -/
def replaceGo (pat rep : List Char) : Nat → List Char → List Char
  | 0, l => l
  | _ + 1, [] => []
  | fuel + 1, c :: rest =>
    if pat.isPrefixOf (c :: rest) then
      rep ++ replaceGo pat rep fuel ((c :: rest).drop pat.length)
    else c :: replaceGo pat rep fuel rest

/-- Python `str.replace` for a nonempty pattern. -/
def strReplace (s pat rep : String) : String :=
  String.mk (replaceGo pat.data rep.data s.data.length s.data)

/-! ### audit_ledger.py — the hash-chained ledger -/

/-- One row of `audit_ledger_entries` (models.AuditLedgerEntry). The
timestamp is carried as its `isoformat()` string, which is the only form in
which it enters the digest; `payload_json` and `prev_hash` are nullable
columns, `entry_hash` is `NOT NULL UNIQUE`. -/
structure AuditLedgerEntry where
  created_at : String
  event_type : String
  entity_type : String
  entity_id : Option Int
  actor_id : Option Int
  payload_json : Option String
  prev_hash : Option String
  entry_hash : String
deriving Repr, DecidableEq

/-- Application state seen by audit_ledger.py: the `app_settings` table
(key to nullable value) and the `audit_ledger_entries` table in primary-key
order (oldest first, so `ORDER BY id DESC ... first()` is `getLast?`). -/
structure LedgerState where
  settings : List (String × Option String)
  entries : List AuditLedgerEntry
deriving Repr, DecidableEq

/-- Lookup in `app_settings` by primary key (`AppSetting.query.get`). -/
def getSettingRow (settings : List (String × Option String)) (key : String) :
    Option (String × Option String) :=
  settings.find? (fun p => p.1 = key)

/-- audit_ledger.is_ledger_enabled: false when the row is missing, else
`setting.value == 'true'` (a null value is not `'true'`). -/
def is_ledger_enabled (st : LedgerState) : Bool :=
  match getSettingRow st.settings ("audit_ledger_enabled") with
  | none => false
  | some row => row.2 = some ("true")

/-- audit_ledger.get_latest_entry: the row with the greatest id. -/
def get_latest_entry (st : LedgerState) : Option AuditLedgerEntry :=
  st.entries.getLast?

/-- audit_ledger._compute_entry_hash: join the predecessor digest and the
entry fields with `'|'`, UTF-8 encode, SHA-256, lowercase hex. The
`prev_hash or ''` / `event_type or ''` / `entity_type or ''` guards are
identity on strings (the empty string maps to itself). -/
def compute_entry_hash (prev_hash created_at event_type entity_type : String)
    (entity_id actor_id : Option Int) (payload_json : String) : String :=
  sha256HexOfString (String.intercalate ("|")
    [prev_hash, created_at, event_type, entity_type,
     intOrEmpty entity_id, intOrEmpty actor_id, payload_json])

/-- Argument tuple of one `append_ledger_entry` call. `payload` carries the
canonical `json.dumps(payload, sort_keys=True, separators=(',', ':'))`
serialization of the payload mapping (`none` when the Python argument is
`None`); `created_at` the optional explicit timestamp and `now_iso` the
`datetime.utcnow().isoformat()` value of the call, both as ISO strings. -/
structure AppendArgs where
  event_type : String
  entity_type : String
  entity_id : Option Int
  actor_id : Option Int
  payload : Option String
  created_at : Option String
  now_iso : String
deriving Repr, DecidableEq

/-- audit_ledger.append_ledger_entry. Returns `none` for the only failure
mode of a committed append: the `UNIQUE` constraint on `entry_hash`
(models.py) rejecting a duplicate digest at flush time. Otherwise returns
the entry handed back to the caller (`none` when the ledger is disabled,
in which case nothing is written) together with the resulting state. -/
def append_ledger_entry (st : LedgerState) (args : AppendArgs) :
    Option (Option AuditLedgerEntry × LedgerState) :=
  if !is_ledger_enabled st then
    some (none, st)
  else
    let timestamp := (args.created_at).getD args.now_iso
    let payload_json := pyStrOr args.payload
    let prev_hash :=
      match st.entries.getLast? with
      | some prev_entry => prev_entry.entry_hash
      | none => ""
    let entry_hash := compute_entry_hash prev_hash timestamp args.event_type
      args.entity_type args.entity_id args.actor_id payload_json
    if st.entries.any (fun e => e.entry_hash = entry_hash) then
      none
    else
      let entry : AuditLedgerEntry :=
        { created_at := timestamp
          event_type := args.event_type
          entity_type := args.entity_type
          entity_id := args.entity_id
          actor_id := args.actor_id
          payload_json := strOrNone payload_json
          prev_hash := strOrNone prev_hash
          entry_hash := entry_hash }
      some (some entry, { st with entries := st.entries ++ [entry] })

/-- Fold a sequence of `append_ledger_entry` calls, propagating a
constraint violation. -/
def appendMany (st : LedgerState) : List AppendArgs → Option LedgerState
  | [] => some st
  | a :: rest =>
    match append_ledger_entry st a with
    | none => none
    | some (_, st') => appendMany st' rest

/-- The digest of the current tail of the store, empty for an empty store
(the value `append_ledger_entry` chains the next entry to). -/
def tailHash (st : LedgerState) : String :=
  match st.entries.getLast? with
  | some e => e.entry_hash
  | none => ""

/-- A run of consecutive entries is correctly chained after predecessor
digest `prev`: each entry stores `strOrNone prev` as its `prev_hash`,
stores exactly the recomputed chained digest over its own fields and
`prev` as its `entry_hash`, and the next entry chains to that digest. -/
def chainedFrom (prev : String) : List AuditLedgerEntry → Prop
  | [] => True
  | e :: rest =>
      e.prev_hash = strOrNone prev ∧
      e.entry_hash = compute_entry_hash prev e.created_at e.event_type
        e.entity_type e.entity_id e.actor_id (pyStrOr e.payload_json) ∧
      chainedFrom e.entry_hash rest

/-! ### The digest character set -/

/-- The set of characters `hexdigest` can emit. -/
def isLowerHexChar (c : Char) : Bool :=
  (48 ≤ c.toNat && c.toNat ≤ 57) || (97 ≤ c.toNat && c.toNat ≤ 102)

/-! ### audit_snapshot.py — the shared row digest -/

/-- audit_snapshot._compute_row_hash: `[prev_hash or ''] + [str(field or '')
for field in fields]`, joined with `'|'`, UTF-8 encoded, SHA-256,
lowercase hex. A `none` (Python `None`) field contributes the empty
string. -/
def compute_row_hash (prev_hash : Option String) (fields : List (Option String)) :
    String :=
  let parts := pyStrOr prev_hash :: fields.map (fun f => pyStrOr f)
  sha256HexOfString (String.intercalate ("|") parts)

/-- The `HashChain.digest` contract as the spec words it (for comparison
with the source functions): join `prevHash` and every field with the fixed
delimiter `'|'`, treating absent/null fields as the empty string, UTF-8
encode, apply SHA-256, return lowercase hex. -/
def chainDigestSpec (prevHash : Option String) (fields : List (Option String)) :
    String :=
  bytesToHex (sha256 (utf8Encode (String.intercalate ("|")
    (pyStrOr prevHash :: fields.map (fun f => pyStrOr f)))))

/-- Concrete enabled store for exercising the ledger theorems. -/
def ledgerOnState : LedgerState :=
  ⟨[(("audit_ledger_enabled"), some ("true"))], []⟩

/-- Two concrete append calls. -/
def twoAppendCalls : List AppendArgs :=
  [⟨("checkout"), ("asset"), some 7, some 1, none, none,
    ("2024-01-02T03:04:05")⟩,
   ⟨("checkin"), ("asset"), some 7, none, some ("[1,2]"), none,
    ("2024-01-02T03:05:06")⟩]

/-- The store after the two concrete appends. -/
def ledgerOnStateAfter : LedgerState :=
  (appendMany ledgerOnState twoAppendCalls).getD ledgerOnState

/-- Concrete disabled store. -/
def ledgerOffState : LedgerState :=
  ⟨[(("audit_ledger_enabled"), some ("false"))],
   [⟨("2023-12-31T00:00:00"), ("seed"), (""), none, none, none, none,
     ("aa")⟩]⟩

/-- The entry `append_ledger_entry` constructs when the store is empty:
its hash chains to the empty-string predecessor digest, and the stored
`prev_hash` column is null (`prev_hash or None` normalizes `''` away). -/
def firstEntryOf (a : AppendArgs) : AuditLedgerEntry :=
  { created_at := (a.created_at).getD a.now_iso
    event_type := a.event_type
    entity_type := a.entity_type
    entity_id := a.entity_id
    actor_id := a.actor_id
    payload_json := strOrNone (pyStrOr a.payload)
    prev_hash := none
    entry_hash := compute_entry_hash ("") ((a.created_at).getD a.now_iso)
      a.event_type a.entity_type a.entity_id a.actor_id (pyStrOr a.payload) }

/-- Empty enabled store and one call, for the C10 theorems. -/
def emptyStoreCall : AppendArgs :=
  ⟨("snapshot"), (""), none, none, none, none, ("2024-05-06T07:08:09")⟩

/-! ### Python dates and datetimes (proleptic Gregorian, as CPython) -/

/-- CPython `_is_leap`. -/
def isLeapYear (y : Nat) : Bool :=
  (y % 4 == 0) && (!(y % 100 == 0) || (y % 400 == 0))

/-- Days before 1-based month `m` in a non-leap year
(CPython `_DAYS_BEFORE_MONTH`). -/
def daysBeforeMonthTable (m : Nat) : Nat :=
  match m with
  | 1 => 0 | 2 => 31 | 3 => 59 | 4 => 90 | 5 => 120 | 6 => 151
  | 7 => 181 | 8 => 212 | 9 => 243 | 10 => 273 | 11 => 304 | _ => 334

/-- CPython `_days_before_month`. -/
def days_before_month (y m : Nat) : Nat :=
  daysBeforeMonthTable m + (if 2 < m ∧ isLeapYear y = true then 1 else 0)

/-- CPython `_days_before_year`. -/
def days_before_year (y : Nat) : Nat :=
  365 * (y - 1) + (y - 1) / 4 - (y - 1) / 100 + (y - 1) / 400

/-- `date.toordinal()`: 0001-01-01 is day 1. -/
def date_toordinal (y m d : Nat) : Nat :=
  days_before_year y + days_before_month y m + d

/-- One day of February added in leap years. -/
def leapBit (b : Bool) : Nat := if b then 1 else 0

/-- Months 1-6 of the day-of-year search. -/
def monthFromDoyLow (L r : Nat) : Nat :=
  if r < 31 then 1 else if r < 59 + L then 2 else if r < 90 + L then 3
  else if r < 120 + L then 4 else if r < 151 + L then 5 else 6

/-- Months 7-12 of the day-of-year search. -/
def monthFromDoyHigh (L r : Nat) : Nat :=
  if r < 212 + L then 7 else if r < 243 + L then 8 else if r < 273 + L then 9
  else if r < 304 + L then 10 else if r < 334 + L then 11 else 12

/-- Month containing 0-based day-of-year `r` (the month-search step of
CPython `_ord2ymd`). -/
def monthFromDoy (leap : Bool) (r : Nat) : Nat :=
  if r < 181 + leapBit leap then monthFromDoyLow (leapBit leap) r
  else monthFromDoyHigh (leapBit leap) r

/-- CPython `_ord2ymd`: year/month/day of an ordinal, via the 400-year,
100-year, 4-year, 1-year cycle decomposition. -/
def ord2ymd (n : Nat) : Nat × Nat × Nat :=
  let n0 := n - 1
  let n400 := n0 / 146097
  let r400 := n0 % 146097
  let n100 := r400 / 36524
  let r100 := r400 % 36524
  let n4 := r100 / 1461
  let r4 := r100 % 1461
  let n1 := r4 / 365
  let r1 := r4 % 365
  let year := 400 * n400 + 100 * n100 + 4 * n4 + n1 + 1
  if n1 = 4 ∨ n100 = 4 then
    (year - 1, 12, 31)
  else
    let m := monthFromDoy (isLeapYear year) r1
    (year, m, r1 - days_before_month year m + 1)

/-- `date.fromordinal`: ordinals below 1 or beyond 9999-12-31 raise a
`ValueError` (modelled as `none`). -/
def date_fromordinal (n : Nat) : Option (Nat × Nat × Nat) :=
  if n = 0 ∨ n > 3652059 then none else some (ord2ymd n)

/-- A naive `datetime.datetime` value. -/
structure PyDateTime where
  year : Nat
  month : Nat
  day : Nat
  hour : Nat
  minute : Nat
  second : Nat
  microsecond : Nat
deriving Repr, DecidableEq

/-- `datetime.weekday()`: Monday is 0 (CPython computes
`(toordinal + 6) % 7`). -/
def dt_weekday (t : PyDateTime) : Nat :=
  (date_toordinal t.year t.month t.day + 6) % 7

/-- Python `datetime <`: lexicographic comparison of the field tuple. -/
def dtLt (a b : PyDateTime) : Bool :=
  if a.year ≠ b.year then Nat.blt a.year b.year
  else if a.month ≠ b.month then Nat.blt a.month b.month
  else if a.day ≠ b.day then Nat.blt a.day b.day
  else if a.hour ≠ b.hour then Nat.blt a.hour b.hour
  else if a.minute ≠ b.minute then Nat.blt a.minute b.minute
  else if a.second ≠ b.second then Nat.blt a.second b.second
  else Nat.blt a.microsecond b.microsecond

/-- Python `datetime <=` (the complement of `<` in a total order). -/
def dtLe (a b : PyDateTime) : Bool := !dtLt b a

/-! ### audit_snapshot.py — the snapshot schedule evaluator -/

/-- models.AuditSnapshotSchedule (singleton row). -/
structure AuditSnapshotSchedule where
  enabled : Bool
  recipient_email : String
  frequency : String
  hour_utc : Nat
  minute_utc : Nat
  weekday_utc : Nat
  last_run_at : Option PyDateTime
deriving Repr, DecidableEq

/-- Result of the `scheduled_at` computation: no valid frequency, a
`ValueError` escaping from `fromordinal` (year below 1), or the window
start. -/
inductive ScheduledAt where
  | invalidFreq : ScheduledAt
  | raised : ScheduledAt
  | ok : PyDateTime → ScheduledAt
deriving Repr, DecidableEq

/-- Lines 540-547 of audit_snapshot.run_scheduled_snapshot_if_due:
`daily` replaces the time of day on today's date; `weekly` steps back
`(now.weekday() - weekday_utc) % 7` days (Python `%` against the positive
literal 7 is nonnegative, as is `Int.emod`) and builds the window start at
`hour_utc:minute_utc`. -/
def compute_scheduled_at (s : AuditSnapshotSchedule) (now : PyDateTime) :
    ScheduledAt :=
  if s.frequency = "daily" then
    .ok { now with hour := s.hour_utc, minute := s.minute_utc,
                   second := 0, microsecond := 0 }
  else if s.frequency = "weekly" then
    let days_behind := (((dt_weekday now : Int) - (s.weekday_utc : Int)) % 7).toNat
    if days_behind = 0 then
      .ok ⟨now.year, now.month, now.day, s.hour_utc, s.minute_utc, 0, 0⟩
    else
      match date_fromordinal
          (date_toordinal now.year now.month now.day - days_behind) with
      | none => .raised
      | some (y, m, d) => .ok ⟨y, m, d, s.hour_utc, s.minute_utc, 0, 0⟩
  else .invalidFreq

/-- Outcome of the due-decision prefix of run_scheduled_snapshot_if_due
(lines 532-553): every early `return (False, msg)`, the uncaught
`ValueError`, or `due` with the window start when the run proceeds. -/
inductive SchedOutcome where
  | notDue : String → SchedOutcome
  | raised : SchedOutcome
  | due : PyDateTime → SchedOutcome
deriving Repr, DecidableEq

/-- Python `schedule.last_run_at and schedule.last_run_at >= scheduled_at`
(a datetime is always truthy, `None` is falsy). -/
def lastRunGe : Option PyDateTime → PyDateTime → Bool
  | none, _ => false
  | some lr, scheduled_at => dtLe scheduled_at lr

/-- The window guards of run_scheduled_snapshot_if_due, applied to the
computed `scheduled_at`. -/
def schedule_due_window (s : AuditSnapshotSchedule) (now : PyDateTime) :
    ScheduledAt → SchedOutcome
  | .invalidFreq => .notDue ("Invalid schedule frequency.")
  | .raised => .raised
  | .ok scheduled_at =>
    if dtLt now scheduled_at then
      .notDue ("Scheduled time not reached yet.")
    else if lastRunGe s.last_run_at scheduled_at then
      .notDue ("Snapshot already generated for current schedule window.")
    else .due scheduled_at

/-- The guard chain of run_scheduled_snapshot_if_due before any snapshot
work starts. -/
def schedule_due (sched : Option AuditSnapshotSchedule) (now : PyDateTime) :
    SchedOutcome :=
  match sched with
  | none => .notDue ("No enabled audit snapshot schedule.")
  | some s =>
    if s.enabled = false ∨ s.recipient_email = "" then
      .notDue ("No enabled audit snapshot schedule.")
    else
      schedule_due_window s now (compute_scheduled_at s now)

/-- Concrete enabled daily schedule for the C4 witness. -/
def dailySchedule : AuditSnapshotSchedule :=
  ⟨true, ("ops@example.com"), ("daily"), 1, 0, 0, none⟩

/-- A poll instant after the daily window opened. -/
def pollInstant : PyDateTime := ⟨2024, 10, 11, 2, 0, 0, 0⟩

/-- The corresponding daily window start. -/
def dailyWindow : PyDateTime := ⟨2024, 10, 11, 1, 0, 0, 0⟩

/-- Concrete weekly schedule (Wednesday at 01:30 UTC). -/
def weeklySchedule : AuditSnapshotSchedule :=
  ⟨true, ("ops@example.com"), ("weekly"), 1, 30, 2, none⟩

/-- A Friday poll instant. -/
def fridayInstant : PyDateTime := ⟨2024, 10, 11, 12, 0, 0, 0⟩

/-! ### breakage.py — repeat-breakage incident flags -/

/-- models.User restricted to what breakage.py reads and writes. -/
structure UserRec where
  id : Nat
  email : String
  name : String
  repeat_breakage_flag : Bool
deriving Repr, DecidableEq

/-- models.Asset restricted to what breakage.py reads and writes. -/
structure AssetRec where
  id : Nat
  repeat_breakage_flag : Bool
deriving Repr, DecidableEq

/-- models.DamageIncident. -/
structure DamageIncident where
  asset_id : Nat
  user_id : Option Nat
  checkout_id : Option Nat
  checked_out_to : String
  source : String
  notes : Option String
  incident_date : PyDateTime
deriving Repr, DecidableEq

/-- The tables breakage.py touches. -/
structure BreakageState where
  assets : List AssetRec
  users : List UserRec
  incidents : List DamageIncident
deriving Repr, DecidableEq

/-- breakage.REPEAT_BREAKAGE_WINDOW_DAYS. -/
def REPEAT_BREAKAGE_WINDOW_DAYS : Nat := 180

/-- breakage.REPEAT_BREAKAGE_THRESHOLD. -/
def REPEAT_BREAKAGE_THRESHOLD : Nat := 3

/-- breakage._is_flagged: `count >= REPEAT_BREAKAGE_THRESHOLD`. -/
def is_flagged (count : Nat) : Bool :=
  decide (REPEAT_BREAKAGE_THRESHOLD ≤ count)

/-- `now - timedelta(days=k)`: the date steps back `k` days, the time of
day is unchanged; out-of-range raises (`none`). -/
def dt_sub_days (t : PyDateTime) (k : Nat) : Option PyDateTime :=
  (date_fromordinal (date_toordinal t.year t.month t.day - k)).map
    (fun p => ⟨p.1, p.2.1, p.2.2, t.hour, t.minute, t.second, t.microsecond⟩)

/-- The incident count of `refresh_repeat_breakage_flags` for an asset:
incidents of that asset with `incident_date >= window_start`. -/
def qualifying_incident_count (incidents : List DamageIncident)
    (asset_id : Nat) (window_start : PyDateTime) : Nat :=
  (incidents.filter (fun i =>
    i.asset_id == asset_id && dtLe window_start i.incident_date)).length

/-- The incident count for a user (`DamageIncident.user_id == user.id`;
a null `user_id` matches no user). -/
def user_qualifying_count (incidents : List DamageIncident)
    (uid : Nat) (window_start : PyDateTime) : Nat :=
  (incidents.filter (fun i =>
    i.user_id == some uid && dtLe window_start i.incident_date)).length

/-- The `if asset_id:` block of refresh_repeat_breakage_flags: skipped for
`None` and for the falsy id 0; otherwise the asset fetched by primary key
(if any) gets its flag recomputed from the trailing window. -/
def refresh_asset_flag (st : BreakageState) (window_start : PyDateTime) :
    Option Nat → BreakageState
  | none => st
  | some a =>
    if a ≠ 0 then
      match st.assets.find? (fun r => r.id == a) with
      | some _ =>
        { st with assets := st.assets.map (fun r =>
            if r.id == a then
              { r with repeat_breakage_flag :=
                  is_flagged (qualifying_incident_count st.incidents a
                    window_start) }
            else r) }
      | none => st
    else st

/-- The `if user_id:` block of refresh_repeat_breakage_flags. -/
def refresh_user_flag (st : BreakageState) (window_start : PyDateTime) :
    Option Nat → BreakageState
  | none => st
  | some u =>
    if u ≠ 0 then
      match st.users.find? (fun r => r.id == u) with
      | some _ =>
        { st with users := st.users.map (fun r =>
            if r.id == u then
              { r with repeat_breakage_flag :=
                  is_flagged (user_qualifying_count st.incidents u
                    window_start) }
            else r) }
      | none => st
    else st

/-- breakage.refresh_repeat_breakage_flags: compute the window start from
`utcnow`, then recompute the asset flag and the user flag. -/
def refresh_repeat_breakage_flags (st : BreakageState) (now : PyDateTime)
    (asset_id user_id : Option Nat) : Option BreakageState :=
  (dt_sub_days now REPEAT_BREAKAGE_WINDOW_DAYS).map (fun window_start =>
    refresh_user_flag (refresh_asset_flag st window_start asset_id)
      window_start user_id)

/-- breakage._find_user_for_checked_out_to: falsy input finds nobody;
otherwise case-insensitive email match first, then name match. -/
def find_user_for_checked_out_to (users : List UserRec)
    (cot : Option String) : Option UserRec :=
  match cot with
  | none => none
  | some s =>
    if s = "" then none
    else
      match users.find? (fun u => pyLower u.email == pyLower s) with
      | some u => some u
      | none => users.find? (fun u => pyLower u.name == pyLower s)

/-- The DamageIncident row record_damage_incident constructs:
`checked_out_to or 'Unknown'` (falsy means absent), `notes or None`,
`incident_date` defaulted to `utcnow`. -/
def new_incident (now : PyDateTime) (asset_id : Nat) (user : Option UserRec)
    (checked_out_to : Option String) (source notes : String)
    (checkout_id : Option Nat) : DamageIncident :=
  { asset_id := asset_id
    user_id := user.map (fun u => u.id)
    checkout_id := checkout_id
    checked_out_to :=
      match checked_out_to with
      | none => ("Unknown")
      | some s => if s = "" then ("Unknown") else s
    source := source
    notes := strOrNone notes
    incident_date := now }

/-- breakage.record_damage_incident: resolve the user, store the incident
(visible to the counting queries via autoflush), then refresh both
flags. -/
def record_damage_incident (st : BreakageState) (now : PyDateTime)
    (asset_id : Nat) (checked_out_to : Option String) (source : String)
    (notes : String) (checkout_id : Option Nat) :
    Option (DamageIncident × BreakageState) :=
  let user := find_user_for_checked_out_to st.users checked_out_to
  let incident := new_incident now asset_id user checked_out_to source notes
    checkout_id
  (refresh_repeat_breakage_flags
    { st with incidents := st.incidents ++ [incident] } now (some asset_id)
    (user.map (fun u => u.id))).map (fun st2 => (incident, st2))

/-- The stored flag of the asset fetched by primary key. -/
def asset_flag (st : BreakageState) (a : Nat) : Option Bool :=
  (st.assets.find? (fun r => r.id == a)).map (fun r => r.repeat_breakage_flag)

/-- The stored flag of the user fetched by primary key. -/
def user_flag (st : BreakageState) (u : Nat) : Option Bool :=
  (st.users.find? (fun r => r.id == u)).map (fun r => r.repeat_breakage_flag)

/-! ### audit_snapshot.py — manifest and bundle -/

/-- Per-file metadata in manifest.json. -/
structure FileMeta where
  sha256 : String
  size_bytes : Nat
deriving Repr, DecidableEq

/-- The manifest mapping built by build_audit_snapshot_bundle:
`snapshot_generated_at_utc`, the per-file map (kept as an association
list), and the `manifest_sha256` key inserted after hashing (absent in the
serialized body). -/
structure Manifest where
  snapshot_generated_at_utc : String
  files : List (String × FileMeta)
  manifest_sha256 : Option String
deriving Repr, DecidableEq

/-- One character escaped as Python's `json.dumps` does with its default
`ensure_ascii=True`: printable ASCII passes through, the two JSON
metacharacters get a backslash, the short escapes apply, and everything
else becomes lowercase `\uXXXX` (a surrogate pair beyond the BMP). -/
def jsonEscapeChar (c : Nat) : List Char :=
  if c = 34 then ['\\', '"']
  else if c = 92 then ['\\', '\\']
  else if c = 8 then ['\\', 'b']
  else if c = 9 then ['\\', 't']
  else if c = 10 then ['\\', 'n']
  else if c = 12 then ['\\', 'f']
  else if c = 13 then ['\\', 'r']
  else if 32 ≤ c ∧ c ≤ 126 then [Char.ofNat c]
  else if c < 65536 then
    ['\\', 'u', hexChar (c / 4096 % 16), hexChar (c / 256 % 16),
     hexChar (c / 16 % 16), hexChar (c % 16)]
  else
    let cp := c - 65536
    let hi := 55296 + cp / 1024
    let lo := 56320 + cp % 1024
    ['\\', 'u', hexChar (hi / 4096 % 16), hexChar (hi / 256 % 16),
     hexChar (hi / 16 % 16), hexChar (hi % 16),
     '\\', 'u', hexChar (lo / 4096 % 16), hexChar (lo / 256 % 16),
     hexChar (lo / 16 % 16), hexChar (lo % 16)]

/-- A JSON string literal as `json.dumps` renders it. -/
def jsonString (s : String) : String :=
  "\"" ++ String.mk (s.data.foldr (fun c acc => jsonEscapeChar c.toNat ++ acc) [])
    ++ "\""

/-- Insert one entry into an association list sorted by key
(`sort_keys=True` sorts code-point-lexicographically, as `String <`
does). -/
def insertByKey (p : String × FileMeta) :
    List (String × FileMeta) → List (String × FileMeta)
  | [] => [p]
  | q :: rest => if p.1 < q.1 then p :: q :: rest else q :: insertByKey p rest

/-- The file map sorted by filename. -/
def sortByKey (l : List (String × FileMeta)) : List (String × FileMeta) :=
  l.foldr insertByKey []

/-- One `"name": {"sha256": ..., "size_bytes": ...}` block at the
indentation `json.dumps(..., indent=2)` uses inside `"files"`. -/
def fileEntryJson (p : String × FileMeta) : String :=
  "    " ++ jsonString p.1 ++ ": \x7b\n      \"sha256\": "
    ++ jsonString p.2.sha256 ++ ",\n      \"size_bytes\": "
    ++ toString p.2.size_bytes ++ "\n    \x7d"

/-- `json.dumps(manifest, indent=2, sort_keys=True)` for the two-key
mapping the code hashes — the body BEFORE `manifest_sha256` is inserted
(the `manifest_sha256` field of the record is ignored here, which is what
"excluding the manifestSha256 field" means). Keys appear in sorted order:
`files`, then `snapshot_generated_at_utc`. -/
def serialize_manifest_body (m : Manifest) : String :=
  let filesBlock :=
    match sortByKey m.files with
    | [] => "\x7b\x7d"
    | l => "\x7b\n" ++ String.intercalate (",\n") (l.map fileEntryJson)
        ++ "\n  \x7d"
  "\x7b\n  \"files\": " ++ filesBlock
    ++ ",\n  \"snapshot_generated_at_utc\": "
    ++ jsonString m.snapshot_generated_at_utc ++ "\n\x7d"

/-- audit_snapshot.build_audit_snapshot_bundle. The extract byte strings
(CSV extracts and README, produced from database queries by
`_build_snapshot_files`) are taken as input; the ZIP archive is modelled
as its named member list (`zf.writestr` stores each member's bytes
verbatim; DEFLATE is transparent to member content). Returns
(archive members, manifest digest, manifest). -/
def build_audit_snapshot_bundle (files : List (String × List Nat))
    (generated_at : String) :
    List (String × List Nat) × String × Manifest :=
  let manifest0 : Manifest :=
    { snapshot_generated_at_utc := generated_at
      files := files.map (fun p => (p.1, ⟨bytesToHex (sha256 p.2), p.2.length⟩))
      manifest_sha256 := none }
  let manifest_json_bytes := utf8Encode (serialize_manifest_body manifest0)
  let manifest_sha := bytesToHex (sha256 manifest_json_bytes)
  let manifest := { manifest0 with manifest_sha256 := some manifest_sha }
  let manifest_sha_bytes := utf8Encode (manifest_sha ++ ("  manifest.json\n"))
  ((("manifest.json"), manifest_json_bytes)
      :: (("manifest.sha256"), manifest_sha_bytes) :: files,
   manifest_sha, manifest)

/-! ### audit_snapshot.py / reports.py — delivery fan-out and run logs -/

/-- audit_snapshot._get_setting: missing row or null value falls back to
the default. -/
def get_setting (settings : List (String × Option String))
    (key default : String) : String :=
  match settings.find? (fun p => p.1 = key) with
  | none => default
  | some row =>
    match row.2 with
    | none => default
    | some v => v

/-- audit_snapshot._setting_enabled. -/
def setting_enabled (settings : List (String × Option String))
    (key : String) : Bool :=
  get_setting settings key ("false") == ("true")

/-- Outcomes of the I/O actions handle_snapshot_artifacts performs,
injected as data: the reportlab PDF build, the three local file writes
(one atomic attempt — paths are recorded only after all writes), the
Drive service construction (`ok false` models a missing credentials file
path, where `_get_drive_service` returns `None`), the three Drive
uploads, and the two mirror-log writers (which return their chained row
hash, or `None` when unconfigured). -/
structure ArtifactEffects where
  pdf_build : Except String (List Nat)
  local_write : Except String Unit
  drive_service : Except String Bool
  drive_zip : Except String String
  drive_csv : Except String String
  drive_pdf : Except String String
  sheet_log : Except String (Option String)
  local_log : Except String (Option String)
deriving Repr

/-- The `results` dict of handle_snapshot_artifacts. -/
structure ArtifactResults where
  zip_sha256 : String
  drive_zip_file_id : Option String
  drive_manifest_csv_file_id : Option String
  drive_manifest_pdf_file_id : Option String
  local_zip_path : Option String
  local_manifest_csv_path : Option String
  local_manifest_pdf_path : Option String
  audit_log_sheet_row_hash : Option String
  audit_log_local_row_hash : Option String
  errors : List String
deriving Repr, DecidableEq

/-- The initial `results` value (lines 223-234). -/
def artifacts_init (zip_bytes : List Nat) : ArtifactResults :=
  { zip_sha256 := bytesToHex (sha256 zip_bytes)
    drive_zip_file_id := none
    drive_manifest_csv_file_id := none
    drive_manifest_pdf_file_id := none
    local_zip_path := none
    local_manifest_csv_path := none
    local_manifest_pdf_path := none
    audit_log_sheet_row_hash := none
    audit_log_local_row_hash := none
    errors := [] }

/-- The PDF build attempt: on failure the error string is collected and
the PDF is simply absent. -/
def apply_pdf (eff : Except String (List Nat)) (r : ArtifactResults) :
    Option (List Nat) × ArtifactResults :=
  match eff with
  | .ok b => (some b, r)
  | .error e => (none, { r with errors := r.errors ++ [e] })

/-- The local-output channel (lines 243-263): paths are set only when
every write succeeded; a failure is collected and does not propagate. -/
def local_output_stage (settings : List (String × Option String))
    (eff : Except String Unit) (manifest_pdf : Option (List Nat))
    (filename : String) (r : ArtifactResults) : ArtifactResults :=
  if setting_enabled settings ("audit_local_output_enabled") then
    let dir0 := pyStrip (get_setting settings ("audit_local_output_dir")
      ("audit_snapshots"))
    let dir := if dir0 = "" then ("audit_snapshots") else dir0
    let zip_path := dir ++ ("/") ++ filename
    let csv_path := dir ++ ("/") ++ strReplace filename (".zip") ("_manifest.csv")
    let pdf_path := dir ++ ("/") ++ strReplace filename (".zip") ("_manifest.pdf")
    match eff with
    | .ok _ =>
      { r with local_zip_path := some zip_path
               local_manifest_csv_path := some csv_path
               local_manifest_pdf_path :=
                 if manifest_pdf.isSome then some pdf_path else none }
    | .error e =>
      { r with errors := r.errors ++ [("Local output failed: ") ++ e] }
  else r

/-- The Drive channel (lines 265-282): service construction and the three
sequential uploads, any exception collected as one error; ids assigned
before the failing upload are kept. -/
def drive_stage (settings : List (String × Option String))
    (svc : Except String Bool) (upZip upCsv upPdf : Except String String)
    (manifest_pdf : Option (List Nat)) (r : ArtifactResults) :
    ArtifactResults :=
  if setting_enabled settings ("audit_drive_enabled") then
    match svc with
    | .error e => { r with errors := r.errors ++ [("Drive upload failed: ") ++ e] }
    | .ok false => r
    | .ok true =>
      match upZip with
      | .error e =>
        { r with errors := r.errors ++ [("Drive upload failed: ") ++ e] }
      | .ok zid =>
        let r1 := { r with drive_zip_file_id := some zid }
        match upCsv with
        | .error e =>
          { r1 with errors := r1.errors ++ [("Drive upload failed: ") ++ e] }
        | .ok cid =>
          let r2 := { r1 with drive_manifest_csv_file_id := some cid }
          if manifest_pdf.isSome then
            match upPdf with
            | .error e =>
              { r2 with errors := r2.errors ++ [("Drive upload failed: ") ++ e] }
            | .ok pid => { r2 with drive_manifest_pdf_file_id := some pid }
          else r2
  else r

/-- The Google-Sheet mirror-log channel (lines 297-306). -/
def log_sheet_stage (settings : List (String × Option String))
    (eff : Except String (Option String)) (r : ArtifactResults) :
    ArtifactResults :=
  if setting_enabled settings ("audit_log_sheet_enabled") then
    match eff with
    | .ok rh => { r with audit_log_sheet_row_hash := rh }
    | .error e =>
      { r with errors := r.errors ++ [("Google Sheet log failed: ") ++ e] }
  else r

/-- The local CSV mirror-log channel (lines 308-313). -/
def log_local_stage (settings : List (String × Option String))
    (eff : Except String (Option String)) (r : ArtifactResults) :
    ArtifactResults :=
  if setting_enabled settings ("audit_log_local_enabled") then
    match eff with
    | .ok rh => { r with audit_log_local_row_hash := rh }
    | .error e =>
      { r with errors := r.errors ++ [("Local log failed: ") ++ e] }
  else r

/-- audit_snapshot.handle_snapshot_artifacts: every channel is attempted
in order, failures only append to `errors` and never abort the rest. -/
def handle_snapshot_artifacts (settings : List (String × Option String))
    (eff : ArtifactEffects) (zip_bytes : List Nat) (manifest_sha : String)
    (manifest : Manifest) (filename : String) : ArtifactResults :=
  let pr := apply_pdf eff.pdf_build (artifacts_init zip_bytes)
  let r2 := local_output_stage settings eff.local_write pr.1 filename pr.2
  let r3 := drive_stage settings eff.drive_service eff.drive_zip eff.drive_csv
    eff.drive_pdf pr.1 r2
  let r4 := log_sheet_stage settings eff.sheet_log r3
  log_local_stage settings eff.local_log r4

/-- One row of `audit_snapshot_logs` (models.AuditSnapshotLog). -/
structure AuditSnapshotLogRow where
  trigger_type : String
  delivery_method : String
  recipient_email : Option String
  zip_filename : String
  manifest_sha256 : String
  status : String
  message : Option String
  created_by : Option Nat
deriving Repr, DecidableEq

/-- audit_snapshot.create_snapshot_log: appends one run-log row
(`recipient_email or None`, `message or None`). The nested
append_ledger_entry call is the ledger model's concern and is not
re-tracked here. -/
def create_snapshot_log (logs : List AuditSnapshotLogRow)
    (trigger_type delivery_method filename manifest_sha256 status
      message recipient_email : String) (created_by : Option Nat) :
    List AuditSnapshotLogRow :=
  logs ++ [{ trigger_type := trigger_type
             delivery_method := delivery_method
             recipient_email := strOrNone recipient_email
             zip_filename := filename
             manifest_sha256 := manifest_sha256
             status := status
             message := strOrNone message
             created_by := created_by }]

/-- The `" Storage warnings: ..."` suffix built from a run's channel
errors. -/
def artifact_warning (errors : List String) : String :=
  if errors = [] then ""
  else (" Storage warnings: ") ++ String.intercalate ("; ") errors

/-- Outcome of the manual snapshot route (reports.generate_audit_snapshot):
the run-log table, the bytes handed to `send_file` for download delivery,
and the flashed messages. -/
structure ManualRunResult where
  logs : List AuditSnapshotLogRow
  downloaded : Option (List Nat)
  flashes : List (String × String)
deriving Repr, DecidableEq

/-- The download branch of reports.generate_audit_snapshot: a build
failure is flashed and nothing else happens (no run-log row); otherwise
artifacts fan out, a `success` row is written with any storage warnings
appended to its message, and the bundle is returned for download. -/
def generate_audit_snapshot_download (settings : List (String × Option String))
    (eff : ArtifactEffects)
    (build : Except String (List Nat × String × Manifest))
    (logs : List AuditSnapshotLogRow) (filename : String) (uid : Nat) :
    ManualRunResult :=
  match build with
  | .error e =>
    { logs := logs
      downloaded := none
      flashes := [((("Failed to build audit snapshot: ") ++ e), ("danger"))] }
  | .ok r =>
    let artifacts := handle_snapshot_artifacts settings eff r.1 r.2.1 r.2.2
      filename
    let am := artifact_warning artifacts.errors
    { logs := create_snapshot_log logs ("manual") ("download") filename r.2.1
        ("success") (("Manual snapshot downloaded.") ++ am) ("") (some uid)
      downloaded := some r.1
      flashes := [] }

/-- The email branch of reports.generate_audit_snapshot (with a nonempty
recipient): a send failure is recorded as a `failed` row carrying the
exception message. -/
def generate_audit_snapshot_email (settings : List (String × Option String))
    (eff : ArtifactEffects)
    (build : Except String (List Nat × String × Manifest))
    (send : Except String Unit)
    (logs : List AuditSnapshotLogRow) (filename email_to : String)
    (uid : Nat) : ManualRunResult :=
  match build with
  | .error e =>
    { logs := logs
      downloaded := none
      flashes := [((("Failed to build audit snapshot: ") ++ e), ("danger"))] }
  | .ok r =>
    let artifacts := handle_snapshot_artifacts settings eff r.1 r.2.1 r.2.2
      filename
    let am := artifact_warning artifacts.errors
    match send with
    | .ok _ =>
      { logs := create_snapshot_log logs ("manual") ("email") filename r.2.1
          ("success") (("Manual snapshot emailed.") ++ am) email_to (some uid)
        downloaded := none
        flashes := [((("Audit snapshot emailed to ") ++ email_to ++ (".")),
          ("success"))] }
    | .error e =>
      { logs := create_snapshot_log logs ("manual") ("email") filename r.2.1
          ("failed") e email_to (some uid)
        downloaded := none
        flashes := [((("Email delivery failed: ") ++ e), ("danger"))] }

/-- Fixed-width zero-padded decimal, for `strftime`. -/
def padNum (w n : Nat) : String :=
  let s := toString n
  String.mk (List.replicate (w - s.length) '0') ++ s

/-- `'audit_snapshot_' + now.strftime('%Y%m%d_%H%M%S') + '.zip'`. -/
def snapshot_filename (now : PyDateTime) : String :=
  ("audit_snapshot_") ++ padNum 4 now.year ++ padNum 2 now.month
    ++ padNum 2 now.day ++ ("_") ++ padNum 2 now.hour ++ padNum 2 now.minute
    ++ padNum 2 now.second ++ (".zip")

/-- Outcome of one run_scheduled_snapshot_if_due invocation: the returned
(ran, message) pair, the run-log table, the (possibly updated) schedule
row, and whether the bundle was emailed out. -/
structure ScheduledRunResult where
  ran : Bool
  msg : String
  logs : List AuditSnapshotLogRow
  schedule : Option AuditSnapshotSchedule
  emailed : Bool
deriving Repr, DecidableEq

/-- The try-block of run_scheduled_snapshot_if_due (lines 558-594) once
the run is due: a build or email failure rolls back (the schedule row
keeps its `last_run_at`), writes a best-effort `failed` row whose
`manifest_sha256` is sixty-four zeros and whose message is the exception
text, and delivers nothing; on success the artifacts fan out,
`last_run_at` is set and a `success` row records any storage warnings. -/
def run_due_snapshot (settings : List (String × Option String))
    (eff : ArtifactEffects)
    (build : Except String (List Nat × String × Manifest))
    (send : Except String Unit) (recipient : String)
    (sched : Option AuditSnapshotSchedule) (now : PyDateTime)
    (logs : List AuditSnapshotLogRow) : ScheduledRunResult :=
  let filename := snapshot_filename now
  let zeros := String.mk (List.replicate 64 '0')
  match build with
  | .error e =>
    ⟨false, e,
     create_snapshot_log logs ("scheduled") ("email") filename zeros
       ("failed") e recipient none,
     sched, false⟩
  | .ok r =>
    match send with
    | .error e =>
      ⟨false, e,
       create_snapshot_log logs ("scheduled") ("email") filename zeros
         ("failed") e recipient none,
       sched, false⟩
    | .ok _ =>
      let artifacts := handle_snapshot_artifacts settings eff r.1 r.2.1 r.2.2
        filename
      let am := artifact_warning artifacts.errors
      ⟨true, ("Scheduled snapshot sent."),
       create_snapshot_log logs ("scheduled") ("email") filename r.2.1
         ("success") (("Scheduled snapshot emailed.") ++ am) recipient none,
       sched.map (fun s => { s with last_run_at := some now }), true⟩

/-- audit_snapshot.run_scheduled_snapshot_if_due: the guard chain
(`schedule_due`), then the guarded run. An out-of-range `fromordinal`
propagates as an uncaught ValueError (modelled as a message-only result
with nothing run). -/
def run_scheduled_snapshot (settings : List (String × Option String))
    (eff : ArtifactEffects)
    (build : Except String (List Nat × String × Manifest))
    (send : Except String Unit) (sched : Option AuditSnapshotSchedule)
    (now : PyDateTime) (logs : List AuditSnapshotLogRow) :
    ScheduledRunResult :=
  match schedule_due sched now with
  | .notDue m => ⟨false, m, logs, sched, false⟩
  | .raised => ⟨false, ("ValueError: ordinal out of range"), logs, sched, false⟩
  | .due _ =>
    run_due_snapshot settings eff build send
      (match sched with
       | some s => s.recipient_email
       | none => "") sched now logs

/-- Settings enabling the local-filesystem channel, the Drive channel and
the local mirror log. -/
def twoChannelSettings : List (String × Option String) :=
  [(("audit_local_output_enabled"), some ("true")),
   (("audit_local_output_dir"), some ("snaps")),
   (("audit_drive_enabled"), some ("true")),
   (("audit_log_local_enabled"), some ("true"))]

/-- Channel outcomes of the C8 scenario: every local action succeeds, the
remote (Drive) upload raises a connection error `e`. -/
def partialDeliveryEffects (e h : String) (pdfb : List Nat) : ArtifactEffects :=
  { pdf_build := .ok pdfb
    local_write := .ok ()
    drive_service := .ok true
    drive_zip := .error e
    drive_csv := .ok ("")
    drive_pdf := .ok ("")
    sheet_log := .ok none
    local_log := .ok (some h) }

/-- A store with one asset and two qualifying incidents. -/
def breakageStart : BreakageState :=
  ⟨[⟨1, false⟩], [],
   [⟨1, none, none, ("Unknown"), ("checkin"), none, ⟨2024, 9, 1, 0, 0, 0, 0⟩⟩,
    ⟨1, none, none, ("Unknown"), ("checkin"), none,
      ⟨2024, 8, 1, 0, 0, 0, 0⟩⟩]⟩

/-- The instant the third incident is recorded. -/
def incidentNow : PyDateTime := ⟨2024, 10, 11, 9, 0, 0, 0⟩

/-- `incidentNow` minus the 180-day trailing window. -/
def windowStart180 : PyDateTime := ⟨2024, 4, 14, 9, 0, 0, 0⟩

/-- The third qualifying incident. -/
def thirdIncident : DamageIncident :=
  ⟨1, none, none, ("Unknown"), ("checkin"), none, incidentNow⟩

/-- The store after recording it: the flag has flipped to true. -/
def breakageAfter : BreakageState :=
  ⟨[⟨1, true⟩], [], breakageStart.incidents ++ [thirdIncident]⟩

/-! ### Fixtures for the failure-recording scenarios -/

/-- Channel outcomes for the C9 scenarios. The failing paths under
scrutiny never reach the artifact fan-out, so a fully successful (and
mostly inert) assignment serves. -/
def c9_default_effects : ArtifactEffects :=
  { pdf_build := .ok []
    local_write := .ok ()
    drive_service := .ok false
    drive_zip := .ok ("")
    drive_csv := .ok ("")
    drive_pdf := .ok ("")
    sheet_log := .ok none
    local_log := .ok none }

/-! ### Theorems -/

theorem hexChar_lower_hex (n : Nat) : isLowerHexChar (hexChar n) = true := by
  unfold hexChar
  split <;> decide

theorem digestBytes_length (st : Sha256State) : (digestBytes st).length = 32 := by
  cases st
  simp [digestBytes, wordBe]

theorem sha256_length (msg : List Nat) : (sha256 msg).length = 32 :=
  digestBytes_length _

theorem bytesToHex_data (bs : List Nat) :
    (bytesToHex bs).data = bs.foldr (fun b acc => byteToHex b ++ acc) [] := rfl

theorem bytesToHex_length (bs : List Nat) :
    (bytesToHex bs).length = 2 * bs.length := by
  show (bytesToHex bs).data.length = 2 * bs.length
  rw [bytesToHex_data]
  induction bs with
  | nil => rfl
  | cons b rest ih =>
    simp only [List.foldr_cons, List.length_append, ih, List.length_cons]
    have hb : (byteToHex b).length = 2 := rfl
    omega

theorem sha256HexOfString_length (s : String) :
    (sha256HexOfString s).length = 64 := by
  unfold sha256HexOfString
  rw [bytesToHex_length, sha256_length]

theorem sha256HexOfString_ne_empty (s : String) : sha256HexOfString s ≠ "" := by
  intro h
  have := sha256HexOfString_length s
  rw [h] at this
  simp [String.length] at this

theorem bytesToHex_chars_lower_hex (bs : List Nat) :
    ∀ c ∈ (bytesToHex bs).data, isLowerHexChar c = true := by
  rw [bytesToHex_data]
  induction bs with
  | nil => simp
  | cons b rest ih =>
    intro c hc
    simp only [List.foldr_cons, List.mem_append] at hc
    rcases hc with hc | hc
    · simp only [byteToHex, List.mem_cons, List.mem_singleton] at hc
      rcases hc with rfl | rfl | h
      · exact hexChar_lower_hex _
      · exact hexChar_lower_hex _
      · cases h
    · exact ih c hc

theorem compute_entry_hash_ne_empty (p c et ent : String) (ei ai : Option Int)
    (pj : String) : compute_entry_hash p c et ent ei ai pj ≠ "" :=
  sha256HexOfString_ne_empty _

theorem pyStrOr_strOrNone (s : String) : pyStrOr (strOrNone s) = s := by
  unfold pyStrOr strOrNone
  split <;> simp_all

/-! ### Behaviour of `append_ledger_entry` sequences -/

theorem append_disabled (st : LedgerState) (a : AppendArgs)
    (h : is_ledger_enabled st = false) :
    append_ledger_entry st a = some (none, st) := by
  unfold append_ledger_entry
  simp [h]

/-- Shape of one successful enabled append: the new entry is appended to
the table, it chains to the previous tail, its digest is fresh, and the
settings are untouched. -/
theorem append_enabled_success (st : LedgerState) (a : AppendArgs)
    (r : Option AuditLedgerEntry) (st' : LedgerState)
    (hen : is_ledger_enabled st = true)
    (h : append_ledger_entry st a = some (r, st')) :
    ∃ e, r = some e ∧
      st'.entries = st.entries ++ [e] ∧
      st'.settings = st.settings ∧
      e.prev_hash = strOrNone (tailHash st) ∧
      e.entry_hash = compute_entry_hash (tailHash st) e.created_at
        e.event_type e.entity_type e.entity_id e.actor_id
        (pyStrOr e.payload_json) ∧
      (∀ x ∈ st.entries, x.entry_hash ≠ e.entry_hash) := by
  unfold append_ledger_entry at h
  rw [hen] at h
  simp only [Bool.not_true, Bool.false_eq_true, if_false] at h
  split at h
  · exact absurd h (by simp)
  · rename_i hdup
    simp only [Option.some.injEq, Prod.mk.injEq] at h
    obtain ⟨hr, hst⟩ := h
    refine ⟨_, hr.symm, ?_, ?_, ?_, ?_, ?_⟩
    · rw [← hst]
    · rw [← hst]
    · rfl
    · show _ = compute_entry_hash (tailHash st) _ _ _ _ _ _
      rw [pyStrOr_strOrNone]
      rfl
    · intro x hx hne
      exact hdup (List.any_eq_true.mpr ⟨x, hx, by simp [hne]⟩)

theorem is_ledger_enabled_settings (st st' : LedgerState)
    (h : st'.settings = st.settings) :
    is_ledger_enabled st' = is_ledger_enabled st := by
  unfold is_ledger_enabled getSettingRow
  rw [h]

/-- Core induction: an enabled run of successful appends only ever appends,
produces a correctly chained suffix, and preserves distinctness of
`entry_hash` across the whole store. -/
theorem appendMany_spec (args : List AppendArgs) :
    ∀ (st st' : LedgerState), is_ledger_enabled st = true →
    appendMany st args = some st' →
    st'.settings = st.settings ∧
    st'.entries.take st.entries.length = st.entries ∧
    chainedFrom (tailHash st) (st'.entries.drop st.entries.length) ∧
    ((st.entries.map (fun e => e.entry_hash)).Nodup →
      (st'.entries.map (fun e => e.entry_hash)).Nodup) := by
  induction args with
  | nil =>
    intro st st' _ h
    simp only [appendMany, Option.some.injEq] at h
    subst h
    refine ⟨rfl, ?_, ?_, fun h => h⟩
    · simp
    · rw [List.drop_length]
      trivial
  | cons a rest ih =>
    intro st st' hen h
    simp only [appendMany] at h
    cases happ : append_ledger_entry st a with
    | none => rw [happ] at h; cases h
    | some pr =>
      rw [happ] at h
      obtain ⟨r, st1⟩ := pr
      obtain ⟨e, _, hentries, hsettings, hprev, hhash, hfresh⟩ :=
        append_enabled_success st a r st1 hen happ
      have hen1 : is_ledger_enabled st1 = true := by
        rw [is_ledger_enabled_settings st st1 hsettings]; exact hen
      obtain ⟨ih_settings, ih_take, ih_chain, ih_nodup⟩ := ih st1 st' hen1 h
      have hsplit : st'.entries
          = (st.entries ++ [e]) ++ st'.entries.drop st1.entries.length := by
        conv_lhs => rw [← List.take_append_drop st1.entries.length st'.entries]
        rw [ih_take, hentries]
      have htake : st'.entries.take st.entries.length = st.entries := by
        rw [hsplit, List.append_assoc, List.take_left]
      refine ⟨by rw [ih_settings, hsettings], htake, ?_, ?_⟩
      · -- chained suffix: e consed onto the suffix appended after st1
        have hdrop : st'.entries.drop st.entries.length
            = e :: st'.entries.drop st1.entries.length := by
          conv_lhs => rw [hsplit, List.append_assoc]
          rw [List.drop_left, List.singleton_append]
        rw [hdrop]
        have htail1 : tailHash st1 = e.entry_hash := by
          unfold tailHash
          rw [hentries, List.getLast?_append]
          rfl
        rw [htail1] at ih_chain
        exact ⟨hprev, hhash, ih_chain⟩
      · intro hnodup
        apply ih_nodup
        rw [hentries, List.map_append]
        simp only [List.map_cons, List.map_nil]
        rw [List.nodup_append]
        refine ⟨hnodup, List.nodup_singleton _, ?_⟩
        intro x hx
        simp only [List.mem_map] at hx
        obtain ⟨y, hy, rfl⟩ := hx
        simp only [List.mem_singleton]
        exact fun hc => hfresh y hy (by rw [hc])

/-- A correctly chained run links consecutively: each entry stores exactly
its predecessor's digest (as a non-null value). -/
theorem chainedFrom_chain' (l : List AuditLedgerEntry) :
    ∀ prev, chainedFrom prev l →
    l.Chain' (fun x y => y.prev_hash = some x.entry_hash) := by
  induction l with
  | nil => intro _ _; trivial
  | cons e rest ih =>
    intro prev h
    obtain ⟨_, hhash, hrest⟩ := h
    apply List.chain'_cons'.mpr
    refine ⟨?_, ih e.entry_hash hrest⟩
    intro y hy
    cases rest with
    | nil => cases hy
    | cons r rs =>
      simp only [List.head?_cons, Option.mem_def, Option.some.injEq] at hy
      subst hy
      obtain ⟨hp, _, _⟩ := hrest
      rw [hp]
      unfold strOrNone
      rw [hhash]
      rw [if_neg (compute_entry_hash_ne_empty _ _ _ _ _ _ _)]

/-- A sanity anchor for the digest pipeline: the FIPS 180-4 test vector. -/
theorem sha256_fips_vector :
    sha256HexOfString ("abc")
      = ("ba7816bf8f01cfea414140de5dae2223b00361a396177a9cb410ff61f20015ad") := by
  decide

/-! ### Claim theorems over the ledger -/

/-- C2: for every prevHash and every ordered list of fields, the chain
digest equals lowercase-hex SHA-256 of the UTF-8 encoding of prevHash and
the fields joined with `'|'` (absent/null fields contributing the empty
string); the result is always a 64-character lowercase-hex string (the
function is total and pure), and the ledger's `_compute_entry_hash`
computes that same digest over its seven fields. -/
theorem c2_chain_digest (prev : Option String) (fields : List (Option String)) :
    compute_row_hash prev fields = chainDigestSpec prev fields ∧
    (compute_row_hash prev fields).length = 64 ∧
    ((compute_row_hash prev fields).data.all isLowerHexChar) = true ∧
    ∀ (p c et ent : String) (ei ai : Option Int) (pj : String),
      compute_entry_hash p c et ent ei ai pj
        = chainDigestSpec (some p)
            [some c, some et, some ent, ei.map (fun v => toString v),
             ai.map (fun v => toString v), some pj] := by
  refine ⟨rfl, sha256HexOfString_length _, ?_, ?_⟩
  · exact List.all_eq_true.mpr (bytesToHex_chars_lower_hex _)
  · intro p c et ent ei ai pj
    unfold compute_entry_hash chainDigestSpec sha256HexOfString
    cases ei <;> cases ai <;> rfl

/-- C1: appending N entries with the ledger enabled throughout yields a
suffix in which every entry's stored digest is exactly the recomputed
chained digest over its stored fields and its predecessor's digest,
consecutive entries link via `prev_hash`, and (given the `UNIQUE`
constraint the store enforces) `entry_hash` stays unique across the whole
store. -/
theorem c1_ledger_chain_integrity (st st' : LedgerState) (args : List AppendArgs)
    (hen : is_ledger_enabled st = true)
    (hnodup : (st.entries.map (fun e => e.entry_hash)).Nodup)
    (happ : appendMany st args = some st') :
    chainedFrom (tailHash st) (st'.entries.drop st.entries.length) ∧
    (st'.entries.drop st.entries.length).Chain'
      (fun x y => y.prev_hash = some x.entry_hash) ∧
    (st'.entries.map (fun e => e.entry_hash)).Nodup := by
  obtain ⟨_, _, hchain, hnd⟩ := appendMany_spec args st st' hen happ
  exact ⟨hchain, chainedFrom_chain' _ _ hchain, hnd hnodup⟩

set_option maxRecDepth 100000 in
theorem c1_ledger_chain_integrity_witness :
    chainedFrom (tailHash ledgerOnState)
      (ledgerOnStateAfter.entries.drop ledgerOnState.entries.length) ∧
    (ledgerOnStateAfter.entries.drop ledgerOnState.entries.length).Chain'
      (fun x y => y.prev_hash = some x.entry_hash) ∧
    (ledgerOnStateAfter.entries.map (fun e => e.entry_hash)).Nodup :=
  c1_ledger_chain_integrity ledgerOnState ledgerOnStateAfter twoAppendCalls
    (by decide) (by decide) (by decide)

/-- C7: with the ledger administratively disabled, each call of the record
operation writes nothing, returns without error (with `None` as its
result), and any number of calls leaves the store — in particular
`get_latest_entry` — unchanged. -/
theorem c7_disabled_ledger_noop (st : LedgerState) (args : List AppendArgs)
    (hdis : is_ledger_enabled st = false) :
    (∀ a, append_ledger_entry st a = some (none, st)) ∧
    appendMany st args = some st ∧
    (∀ st', appendMany st args = some st' →
      get_latest_entry st' = get_latest_entry st) := by
  have hmany : appendMany st args = some st := by
    induction args with
    | nil => rfl
    | cons a rest ih => simp only [appendMany, append_disabled st a hdis, ih]
  refine ⟨fun a => append_disabled st a hdis, hmany, ?_⟩
  intro st' h
  rw [hmany] at h
  cases h
  rfl

theorem c7_disabled_ledger_noop_witness :
    (∀ a, append_ledger_entry ledgerOffState a = some (none, ledgerOffState)) ∧
    appendMany ledgerOffState twoAppendCalls = some ledgerOffState ∧
    (∀ st', appendMany ledgerOffState twoAppendCalls = some st' →
      get_latest_entry st' = get_latest_entry ledgerOffState) :=
  c7_disabled_ledger_noop ledgerOffState twoAppendCalls (by decide)

/-- C10 (amended): the first entry written into an empty-tail store has a
null stored `prev_hash` — the code normalizes the empty string to null via
`prev_hash or None` — and its `entry_hash` is computed over the
empty-string predecessor digest. -/
theorem c10_first_entry_null_prev (st : LedgerState) (a : AppendArgs)
    (hempty : st.entries = [])
    (hen : is_ledger_enabled st = true) :
    append_ledger_entry st a
      = some (some (firstEntryOf a), { st with entries := [firstEntryOf a] }) ∧
    (firstEntryOf a).prev_hash = none ∧
    (firstEntryOf a).entry_hash
      = compute_entry_hash ("") ((a.created_at).getD a.now_iso) a.event_type
        a.entity_type a.entity_id a.actor_id (pyStrOr a.payload) := by
  refine ⟨?_, rfl, rfl⟩
  unfold append_ledger_entry
  simp only [hen, hempty, Bool.not_true, Bool.false_eq_true, if_false,
    List.getLast?_nil, List.any_nil, List.nil_append, firstEntryOf,
    strOrNone, if_pos rfl]
  rfl

/-- C10 counterexample: at a concrete first-ever append the stored
`prev_hash` is null, not the empty string the claim asserts (the digest is
nonetheless computed over the empty-string predecessor, per the amended
theorem). -/

theorem c10_first_entry_counterexample :
    (append_ledger_entry ledgerOnState emptyStoreCall).map
      (fun r => r.1.map (fun e => e.prev_hash)) = some (some none) ∧
    (append_ledger_entry ledgerOnState emptyStoreCall).map
      (fun r => r.1.map (fun e => e.prev_hash))
      ≠ some (some (some (""))) := by
  refine ⟨by decide, by decide⟩

theorem c10_first_entry_null_prev_witness :
    append_ledger_entry ledgerOnState emptyStoreCall
      = some (some (firstEntryOf emptyStoreCall),
          { ledgerOnState with entries := [firstEntryOf emptyStoreCall] }) ∧
    (firstEntryOf emptyStoreCall).prev_hash = none ∧
    (firstEntryOf emptyStoreCall).entry_hash
      = compute_entry_hash ("")
        ((emptyStoreCall.created_at).getD emptyStoreCall.now_iso)
        emptyStoreCall.event_type emptyStoreCall.entity_type
        emptyStoreCall.entity_id emptyStoreCall.actor_id
        (pyStrOr emptyStoreCall.payload) :=
  c10_first_entry_null_prev ledgerOnState emptyStoreCall rfl (by decide)

/-! ### Calendar round-trip -/

theorem isLeapYear_iff (y : Nat) :
    isLeapYear y = true ↔ (y % 4 = 0 ∧ (y % 100 ≠ 0 ∨ y % 400 = 0)) := by
  unfold isLeapYear
  simp only [Bool.and_eq_true, Bool.or_eq_true, Bool.not_eq_true',
    beq_eq_false_iff_ne, beq_iff_eq, ne_eq]

theorem days_before_month_monthFromDoy_le (y r : Nat) :
    days_before_month y (monthFromDoy (isLeapYear y) r) ≤ r := by
  cases hL : isLeapYear y <;>
    unfold monthFromDoy monthFromDoyLow monthFromDoyHigh leapBit <;>
    simp only [hL, if_true, if_false, Bool.false_eq_true] <;>
    split_ifs <;>
    simp_all [days_before_month, daysBeforeMonthTable]

theorem days_before_year_decompose (a b c d : Nat)
    (hb : b ≤ 3) (hc : c ≤ 24) (hd : d ≤ 3) :
    days_before_year (400 * a + 100 * b + 4 * c + d + 1)
      = 146097 * a + 36524 * b + 1461 * c + 365 * d := by
  unfold days_before_year
  omega

/-- Inverting the ordinal decomposition: `toordinal` of `_ord2ymd n`
returns `n`. -/
theorem toordinal_ord2ymd (n : Nat) (hn : 1 ≤ n) :
    ∀ y m d, ord2ymd n = (y, m, d) → date_toordinal y m d = n := by
  intro y m d h
  simp only [ord2ymd] at h
  have eq1 : 146097 * ((n - 1) / 146097) + (n - 1) % 146097 = n - 1 :=
    Nat.div_add_mod _ _
  have lt1 : (n - 1) % 146097 < 146097 := Nat.mod_lt _ (by norm_num)
  have eq2 : 36524 * ((n - 1) % 146097 / 36524) + (n - 1) % 146097 % 36524
      = (n - 1) % 146097 := Nat.div_add_mod _ _
  have lt2 : (n - 1) % 146097 % 36524 < 36524 := Nat.mod_lt _ (by norm_num)
  have eq3 : 1461 * ((n - 1) % 146097 % 36524 / 1461)
      + (n - 1) % 146097 % 36524 % 1461
      = (n - 1) % 146097 % 36524 := Nat.div_add_mod _ _
  have lt3 : (n - 1) % 146097 % 36524 % 1461 < 1461 :=
    Nat.mod_lt _ (by norm_num)
  have eq4 : 365 * ((n - 1) % 146097 % 36524 % 1461 / 365)
      + (n - 1) % 146097 % 36524 % 1461 % 365
      = (n - 1) % 146097 % 36524 % 1461 := Nat.div_add_mod _ _
  have lt4 : (n - 1) % 146097 % 36524 % 1461 % 365 < 365 :=
    Nat.mod_lt _ (by norm_num)
  generalize hB : (n - 1) % 146097 = B at *
  generalize hA : (n - 1) / 146097 = A at *
  generalize hD : B % 36524 = D at *
  generalize hC : B / 36524 = C at *
  generalize hF : D % 1461 = F at *
  generalize hE : D / 1461 = E at *
  generalize hH : F % 365 = H at *
  generalize hG : F / 365 = G at *
  split at h
  · -- edge case: Dec 31 closing a 4-year or 400-year cycle (a leap year)
    rename_i hedge
    simp only [Prod.mk.injEq] at h
    obtain ⟨rfl, rfl, rfl⟩ := h
    simp only [Nat.add_sub_cancel]
    unfold date_toordinal days_before_month
    have ht : daysBeforeMonthTable 12 = 334 := rfl
    rw [ht]
    rcases hedge with he | he
    · -- last day of a 4-year cycle
      subst he
      have hH0 : H = 0 := by omega
      have hE23 : E ≤ 23 := by omega
      have hC3 : C ≤ 3 := by omega
      have hleap : isLeapYear (400 * A + 100 * C + 4 * E + 4) = true :=
        (isLeapYear_iff _).mpr ⟨by omega, Or.inl (by omega)⟩
      rw [if_pos ⟨by norm_num, hleap⟩]
      have harg : 400 * A + 100 * C + 4 * E + 4
          = 400 * A + 100 * C + 4 * E + 3 + 1 := by omega
      rw [harg, days_before_year_decompose A C E 3 hC3 (by omega) (by norm_num)]
      omega
    · -- last day of a 400-year cycle
      subst he
      have hD0 : D = 0 := by omega
      have hE0 : E = 0 := by omega
      have hF0 : F = 0 := by omega
      have hG0 : G = 0 := by omega
      subst hE0
      subst hG0
      have hleap : isLeapYear (400 * A + 100 * 4 + 4 * 0 + 0) = true :=
        (isLeapYear_iff _).mpr ⟨by omega, Or.inr (by omega)⟩
      rw [if_pos ⟨by norm_num, hleap⟩]
      have harg : 400 * A + 100 * 4 + 4 * 0 + 0
          = 400 * A + 100 * 3 + 4 * 24 + 3 + 1 := by omega
      rw [harg, days_before_year_decompose A 3 24 3 (by norm_num) (by norm_num)
        (by norm_num)]
      omega
  · -- a regular day: year, month from the day-of-year, day in month
    rename_i hedge
    push_neg at hedge
    simp only [Prod.mk.injEq] at h
    obtain ⟨rfl, rfl, rfl⟩ := h
    have hle := days_before_month_monthFromDoy_le
      (400 * A + 100 * C + 4 * E + G + 1) H
    have hC3 : C ≤ 3 := by omega
    have hE24 : E ≤ 24 := by omega
    have hG3 : G ≤ 3 := by omega
    unfold date_toordinal
    rw [days_before_year_decompose A C E G hC3 hE24 hG3]
    omega

theorem date_fromordinal_toordinal (n y m d : Nat)
    (h : date_fromordinal n = some (y, m, d)) : date_toordinal y m d = n := by
  unfold date_fromordinal at h
  split at h
  · cases h
  · rename_i hc
    push_neg at hc
    simp only [Option.some.injEq] at h
    exact toordinal_ord2ymd n (by omega) y m d h

/-! ### Claim theorems over the schedule evaluator -/

/-- C4: for an enabled schedule with a recipient whose window start
computes to `ws`, the evaluator proceeds to run (fires) exactly when
`now >= ws` and `last_run_at` is null or earlier than `ws` — so it never
fires before the configured time and at most once per window however often
it is polled. -/
theorem c4_schedule_due_iff (s : AuditSnapshotSchedule) (now ws : PyDateTime)
    (hen : s.enabled = true) (hrec : s.recipient_email ≠ "")
    (hat : compute_scheduled_at s now = .ok ws) :
    schedule_due (some s) now = .due ws
      ↔ (dtLe ws now = true ∧ ∀ lr ∈ s.last_run_at, dtLt lr ws = true) := by
  have hshape : schedule_due (some s) now
      = schedule_due_window s now (compute_scheduled_at s now) := by
    simp only [schedule_due]
    rw [if_neg (by simp [hen, hrec])]
  rw [hshape, hat]
  simp only [schedule_due_window]
  cases hlt : dtLt now ws with
  | true =>
    rw [if_pos rfl]
    constructor
    · intro h
      cases h
    · intro ⟨h, _⟩
      simp only [dtLe, hlt, Bool.not_true] at h
      cases h
  | false =>
    rw [if_neg Bool.false_ne_true]
    cases hl : s.last_run_at with
    | none =>
      simp [dtLe, hlt, lastRunGe]
    | some lr =>
      simp only [lastRunGe]
      split
      · rename_i hle2
        constructor
        · intro h
          cases h
        · intro ⟨_, h⟩
          have hlw := h lr rfl
          have hfalse : dtLe ws lr = false := by
            simp only [dtLe, hlw, Bool.not_true]
          rw [hfalse] at hle2
          cases hle2
      · rename_i hle2
        have hf : dtLe ws lr = false := by
          revert hle2
          cases dtLe ws lr <;> simp
        have hlw : dtLt lr ws = true := by
          simp only [dtLe, Bool.not_eq_false'] at hf
          exact hf
        have hnow : dtLe ws now = true := by
          simp only [dtLe, hlt, Bool.not_false]
        constructor
        · intro _
          refine ⟨hnow, ?_⟩
          intro lr' hlr'
          simp only [Option.mem_def, Option.some.injEq] at hlr'
          rw [← hlr']
          exact hlw
        · intro _
          rfl

theorem c4_schedule_due_iff_witness :
    schedule_due (some dailySchedule) pollInstant = .due dailyWindow
      ↔ (dtLe dailyWindow pollInstant = true ∧
         ∀ lr ∈ dailySchedule.last_run_at, dtLt lr dailyWindow = true) :=
  c4_schedule_due_iff dailySchedule pollInstant dailyWindow rfl
    (by decide) (by decide)

/-- C5: for a weekly schedule with `weekday_utc = 2` (Wednesday) and `now`
on a Friday (weekday 4), `days_behind` computes to 2 and the window start
falls exactly two days before `now`'s date — the preceding Wednesday
(weekday 2) — at `hour_utc:minute_utc`. -/
theorem c5_weekly_offset (s : AuditSnapshotSchedule) (now : PyDateTime)
    (hfreq : s.frequency = "weekly")
    (hwd : s.weekday_utc = 2)
    (hfri : dt_weekday now = 4)
    (hub : date_toordinal now.year now.month now.day ≤ 3652059) :
    (((dt_weekday now : Int) - (s.weekday_utc : Int)) % 7).toNat = 2 ∧
    ∃ ws, compute_scheduled_at s now = .ok ws ∧
      date_toordinal ws.year ws.month ws.day
        = date_toordinal now.year now.month now.day - 2 ∧
      dt_weekday ws = 2 ∧
      ws.hour = s.hour_utc ∧ ws.minute = s.minute_utc := by
  have hdb : (((dt_weekday now : Int) - (s.weekday_utc : Int)) % 7).toNat = 2 := by
    rw [hfri, hwd]
    decide
  refine ⟨hdb, ?_⟩
  have hord : 5 ≤ date_toordinal now.year now.month now.day := by
    unfold dt_weekday at hfri
    omega
  obtain ⟨⟨wy, wm, wd⟩, hsome⟩ : ∃ p,
      date_fromordinal (date_toordinal now.year now.month now.day - 2)
        = some p := by
    unfold date_fromordinal
    rw [if_neg (by omega)]
    exact ⟨_, rfl⟩
  have hround := date_fromordinal_toordinal _ _ _ _ hsome
  refine ⟨⟨wy, wm, wd, s.hour_utc, s.minute_utc, 0, 0⟩, ?_, ?_, ?_, rfl, rfl⟩
  · unfold compute_scheduled_at
    rw [if_neg (by rw [hfreq]; decide)]
    rw [if_pos hfreq]
    rw [hdb]
    rw [if_neg (by decide)]
    rw [hsome]
  · exact hround
  · unfold dt_weekday at hfri ⊢
    simp only []
    rw [hround]
    omega

theorem c5_weekly_offset_witness :
    (((dt_weekday fridayInstant : Int) - (weeklySchedule.weekday_utc : Int))
        % 7).toNat = 2 ∧
    ∃ ws, compute_scheduled_at weeklySchedule fridayInstant = .ok ws ∧
      date_toordinal ws.year ws.month ws.day
        = date_toordinal fridayInstant.year fridayInstant.month
            fridayInstant.day - 2 ∧
      dt_weekday ws = 2 ∧
      ws.hour = weeklySchedule.hour_utc ∧
      ws.minute = weeklySchedule.minute_utc :=
  c5_weekly_offset weeklySchedule fridayInstant rfl rfl (by decide) (by decide)

/-! ### Claim theorem over the snapshot bundle -/

/-- C3: in a built bundle, the manifest records exactly the SHA-256 and
size of each extract file (shipped verbatim as an archive member);
recomputing SHA-256 over the canonical manifest body — the serialized
manifest without its `manifest_sha256` field — reproduces the returned
digest, which is also embedded in the manifest and written as the
`manifest.sha256` member's `<digest>  manifest.json` line. -/
theorem c3_manifest_roundtrip (files : List (String × List Nat)) (gen : String) :
    List.Forall₂ (fun (src : String × List Nat) (entry : String × FileMeta) =>
        entry.1 = src.1 ∧ entry.2.sha256 = bytesToHex (sha256 src.2) ∧
        entry.2.size_bytes = src.2.length)
      files (build_audit_snapshot_bundle files gen).2.2.files ∧
    (build_audit_snapshot_bundle files gen).2.1
      = bytesToHex (sha256 (utf8Encode (serialize_manifest_body
          { (build_audit_snapshot_bundle files gen).2.2 with
              manifest_sha256 := none }))) ∧
    (build_audit_snapshot_bundle files gen).2.2.manifest_sha256
      = some (build_audit_snapshot_bundle files gen).2.1 ∧
    (build_audit_snapshot_bundle files gen).1
      = (("manifest.json"), utf8Encode (serialize_manifest_body
            { (build_audit_snapshot_bundle files gen).2.2 with
                manifest_sha256 := none }))
        :: (("manifest.sha256"), utf8Encode
              ((build_audit_snapshot_bundle files gen).2.1
                ++ ("  manifest.json\n")))
        :: files := by
  have hfa : ∀ (l : List (String × List Nat)),
      List.Forall₂ (fun (src : String × List Nat) (entry : String × FileMeta) =>
          entry.1 = src.1 ∧ entry.2.sha256 = bytesToHex (sha256 src.2) ∧
          entry.2.size_bytes = src.2.length)
        l (l.map (fun p => (p.1, ⟨bytesToHex (sha256 p.2), p.2.length⟩))) := by
    intro l
    induction l with
    | nil => exact .nil
    | cons p rest ih => exact .cons ⟨rfl, rfl, rfl⟩ ih
  exact ⟨hfa files, rfl, rfl, rfl⟩

/-! ### Claim theorems over delivery and failure logging -/

theorem string_append_ne_empty_left (s t : String) (h : s ≠ "") :
    s ++ t ≠ "" := by
  intro hc
  apply h
  have hlen := congrArg String.length hc
  rw [String.length_append] at hlen
  have hs : s.length = 0 := by
    have : String.length ("") = 0 := rfl
    omega
  cases s with
  | mk data =>
    cases data with
    | nil => rfl
    | cons c cs => simp [String.length] at hs

theorem strOrNone_append_left (s t : String) (h : s ≠ "") :
    strOrNone (s ++ t) = some (s ++ t) := by
  unfold strOrNone
  rw [if_neg (string_append_ne_empty_left s t h)]

theorem intercalate_singleton (s x : String) :
    String.intercalate s [x] = x := rfl

/-- C8: with the local channel succeeding and the remote upload raising a
connection error, the remaining channels are still attempted (the local
paths are recorded and the mirror log still writes its row), the run's
SnapshotRunLog row has status `success`, and the remote error text appears
in the row's message as a storage warning. -/
theorem c8_partial_delivery (e h : String) (pdfb zb : List Nat)
    (sha : String) (man : Manifest) (filename : String)
    (logs : List AuditSnapshotLogRow) (uid : Nat) :
    (handle_snapshot_artifacts twoChannelSettings
        (partialDeliveryEffects e h pdfb) zb sha man filename).local_zip_path
      = some (("snaps/") ++ filename) ∧
    (handle_snapshot_artifacts twoChannelSettings
        (partialDeliveryEffects e h pdfb) zb sha man
        filename).audit_log_local_row_hash = some h ∧
    (handle_snapshot_artifacts twoChannelSettings
        (partialDeliveryEffects e h pdfb) zb sha man
        filename).drive_zip_file_id = none ∧
    (handle_snapshot_artifacts twoChannelSettings
        (partialDeliveryEffects e h pdfb) zb sha man filename).errors
      = [("Drive upload failed: ") ++ e] ∧
    (generate_audit_snapshot_download twoChannelSettings
        (partialDeliveryEffects e h pdfb) (.ok (zb, sha, man)) logs filename
        uid).logs
      = logs ++
        [{ trigger_type := ("manual")
           delivery_method := ("download")
           recipient_email := none
           zip_filename := filename
           manifest_sha256 := sha
           status := ("success")
           message := some
             (("Manual snapshot downloaded. Storage warnings: Drive upload failed: ")
               ++ e)
           created_by := some uid }] ∧
    (generate_audit_snapshot_download twoChannelSettings
        (partialDeliveryEffects e h pdfb) (.ok (zb, sha, man)) logs filename
        uid).downloaded = some zb := by
  have harts : handle_snapshot_artifacts twoChannelSettings
      (partialDeliveryEffects e h pdfb) zb sha man filename
      = { zip_sha256 := bytesToHex (sha256 zb)
          drive_zip_file_id := none
          drive_manifest_csv_file_id := none
          drive_manifest_pdf_file_id := none
          local_zip_path := some (("snaps/") ++ filename)
          local_manifest_csv_path :=
            some (("snaps/") ++ strReplace filename (".zip") ("_manifest.csv"))
          local_manifest_pdf_path :=
            some (("snaps/") ++ strReplace filename (".zip") ("_manifest.pdf"))
          audit_log_sheet_row_hash := none
          audit_log_local_row_hash := some h
          errors := [("Drive upload failed: ") ++ e] } := rfl
  refine ⟨by rw [harts], by rw [harts], by rw [harts], by rw [harts], ?_, rfl⟩
  have hmsg : ("Manual snapshot downloaded.")
      ++ artifact_warning [("Drive upload failed: ") ++ e]
      = ("Manual snapshot downloaded. Storage warnings: Drive upload failed: ")
        ++ e := by
    unfold artifact_warning
    rw [if_neg (by simp), intercalate_singleton, ← String.append_assoc,
      ← String.append_assoc]
    rfl
  show create_snapshot_log logs ("manual") ("download") filename sha
      ("success")
      (("Manual snapshot downloaded.")
        ++ artifact_warning (handle_snapshot_artifacts twoChannelSettings
            (partialDeliveryEffects e h pdfb) zb sha man filename).errors)
      ("") (some uid) = _
  rw [harts]
  show create_snapshot_log _ _ _ _ _ _ _ _ _ = _
  rw [hmsg]
  unfold create_snapshot_log
  rw [strOrNone_append_left
    (("Manual snapshot downloaded. Storage warnings: Drive upload failed: "))
    e (by decide)]
  rfl

/-! ### Claim theorems over the incident flags -/

theorem refresh_asset_flag_incidents (st : BreakageState) (ws : PyDateTime)
    (x : Option Nat) : (refresh_asset_flag st ws x).incidents = st.incidents := by
  cases x with
  | none => rfl
  | some a =>
    simp only [refresh_asset_flag]
    split
    · split <;> rfl
    · rfl

theorem refresh_asset_flag_users (st : BreakageState) (ws : PyDateTime)
    (x : Option Nat) : (refresh_asset_flag st ws x).users = st.users := by
  cases x with
  | none => rfl
  | some a =>
    simp only [refresh_asset_flag]
    split
    · split <;> rfl
    · rfl

theorem refresh_user_flag_incidents (st : BreakageState) (ws : PyDateTime)
    (x : Option Nat) : (refresh_user_flag st ws x).incidents = st.incidents := by
  cases x with
  | none => rfl
  | some u =>
    simp only [refresh_user_flag]
    split
    · split <;> rfl
    · rfl

theorem refresh_user_flag_assets (st : BreakageState) (ws : PyDateTime)
    (x : Option Nat) : (refresh_user_flag st ws x).assets = st.assets := by
  cases x with
  | none => rfl
  | some u =>
    simp only [refresh_user_flag]
    split
    · split <;> rfl
    · rfl

theorem asset_find_map_update (l : List AssetRec) (a : Nat) (b : Bool)
    (r0 : AssetRec) (hfind : l.find? (fun r => r.id == a) = some r0) :
    ((l.map (fun r => if r.id == a then { r with repeat_breakage_flag := b }
        else r)).find? (fun r => r.id == a)).map
      (fun r => r.repeat_breakage_flag) = some b := by
  induction l with
  | nil => cases hfind
  | cons r rest ih =>
    by_cases hra : (r.id == a) = true
    · simp only [List.map_cons]
      rw [if_pos hra]
      rw [List.find?_cons_of_pos _ (by simpa using hra)]
      rfl
    · simp only [List.map_cons]
      rw [if_neg hra]
      rw [List.find?_cons_of_neg _ (by simpa using hra)]
      rw [List.find?_cons_of_neg _ (by simpa using hra)] at hfind
      exact ih hfind

theorem user_find_map_update (l : List UserRec) (u : Nat) (b : Bool)
    (r0 : UserRec) (hfind : l.find? (fun r => r.id == u) = some r0) :
    ((l.map (fun r => if r.id == u then { r with repeat_breakage_flag := b }
        else r)).find? (fun r => r.id == u)).map
      (fun r => r.repeat_breakage_flag) = some b := by
  induction l with
  | nil => cases hfind
  | cons r rest ih =>
    by_cases hru : (r.id == u) = true
    · simp only [List.map_cons]
      rw [if_pos hru]
      rw [List.find?_cons_of_pos _ (by simpa using hru)]
      rfl
    · simp only [List.map_cons]
      rw [if_neg hru]
      rw [List.find?_cons_of_neg _ (by simpa using hru)]
      rw [List.find?_cons_of_neg _ (by simpa using hru)] at hfind
      exact ih hfind

theorem asset_flag_refresh_user (st : BreakageState) (ws : PyDateTime)
    (x : Option Nat) (a : Nat) :
    asset_flag (refresh_user_flag st ws x) a = asset_flag st a := by
  unfold asset_flag
  rw [refresh_user_flag_assets]

theorem refresh_asset_flag_flag (st : BreakageState) (ws : PyDateTime)
    (a : Nat) (ha : a ≠ 0) (r0 : AssetRec)
    (hfind : st.assets.find? (fun r => r.id == a) = some r0) :
    asset_flag (refresh_asset_flag st ws (some a)) a
      = some (is_flagged (qualifying_incident_count st.incidents a ws)) := by
  simp only [refresh_asset_flag]
  unfold asset_flag
  rw [if_pos ha, hfind]
  exact asset_find_map_update _ _ _ _ hfind

theorem refresh_user_flag_flag (st : BreakageState) (ws : PyDateTime)
    (u : Nat) (hu : u ≠ 0) (r1 : UserRec)
    (hfind : st.users.find? (fun r => r.id == u) = some r1) :
    user_flag (refresh_user_flag st ws (some u)) u
      = some (is_flagged (user_qualifying_count st.incidents u ws)) := by
  simp only [refresh_user_flag]
  unfold user_flag
  rw [if_pos hu, hfind]
  exact user_find_map_update _ _ _ _ hfind

/-- C6: recording an incident appends it (dated `utcnow`) and recomputes
the entity's flag as exactly "qualifying incidents in the trailing 180-day
window >= 3": two qualifying incidents leave the flag false, a third flips
it to true, and an incident strictly older than the window start never
counts. Both flagged entity kinds (asset and resolved user) are covered. -/
theorem c6_incident_threshold (st : BreakageState) (now ws : PyDateTime)
    (aid : Nat) (cot : Option String) (source notes : String)
    (cid : Option Nat) (inc : DamageIncident) (st' : BreakageState)
    (r0 : AssetRec)
    (haid : aid ≠ 0)
    (hws : dt_sub_days now REPEAT_BREAKAGE_WINDOW_DAYS = some ws)
    (hpresent : st.assets.find? (fun r => r.id == aid) = some r0)
    (hrec : record_damage_incident st now aid cot source notes cid
      = some (inc, st')) :
    st'.incidents = st.incidents ++ [inc] ∧
    inc.asset_id = aid ∧
    inc.incident_date = now ∧
    asset_flag st' aid
      = some (is_flagged (qualifying_incident_count st'.incidents aid ws)) ∧
    (qualifying_incident_count st'.incidents aid ws = 2 →
      asset_flag st' aid = some false) ∧
    (3 ≤ qualifying_incident_count st'.incidents aid ws →
      asset_flag st' aid = some true) ∧
    (∀ (l : List DamageIncident) (old : DamageIncident),
      dtLt old.incident_date ws = true →
      qualifying_incident_count (l ++ [old]) aid ws
        = qualifying_incident_count l aid ws) ∧
    (∀ u r1, find_user_for_checked_out_to st.users cot = some u →
      u.id ≠ 0 →
      st.users.find? (fun r => r.id == u.id) = some r1 →
      user_flag st' u.id
        = some (is_flagged (user_qualifying_count st'.incidents u.id ws))) := by
  unfold record_damage_incident refresh_repeat_breakage_flags at hrec
  rw [hws] at hrec
  simp only [Option.map_some', Option.some.injEq, Prod.mk.injEq] at hrec
  obtain ⟨hinc, hst⟩ := hrec
  subst hinc
  subst hst
  refine ⟨?_, rfl, rfl, ?_, ?_, ?_, ?_, ?_⟩
  · rw [refresh_user_flag_incidents, refresh_asset_flag_incidents]
  · rw [refresh_user_flag_incidents, refresh_asset_flag_incidents,
      asset_flag_refresh_user]
    exact refresh_asset_flag_flag _ ws aid haid r0 hpresent
  · intro h2
    rw [refresh_user_flag_incidents, refresh_asset_flag_incidents] at h2
    rw [asset_flag_refresh_user, refresh_asset_flag_flag
      { st with incidents := st.incidents ++ [new_incident now aid
        (find_user_for_checked_out_to st.users cot) cot source notes cid] }
      ws aid haid r0 hpresent]
    rw [h2]
    rfl
  · intro h3
    rw [refresh_user_flag_incidents, refresh_asset_flag_incidents] at h3
    rw [asset_flag_refresh_user, refresh_asset_flag_flag
      { st with incidents := st.incidents ++ [new_incident now aid
        (find_user_for_checked_out_to st.users cot) cot source notes cid] }
      ws aid haid r0 hpresent]
    unfold is_flagged REPEAT_BREAKAGE_THRESHOLD
    rw [decide_eq_true h3]
  · intro l old hold
    unfold qualifying_incident_count
    rw [List.filter_append]
    simp [List.filter_cons, dtLe, hold]
  · intro u r1 hu hu0 hfindu
    rw [refresh_user_flag_incidents, refresh_asset_flag_incidents]
    simp only [hu, Option.map_some']
    have hfindM : (refresh_asset_flag
        { st with incidents := st.incidents ++ [new_incident now aid
          (some u) cot source notes cid] }
        ws (some aid)).users.find? (fun r => r.id == u.id) = some r1 := by
      rw [refresh_asset_flag_users]
      exact hfindu
    have hlem := refresh_user_flag_flag _ ws u.id hu0 r1 hfindM
    rw [refresh_asset_flag_incidents] at hlem
    exact hlem

theorem c6_incident_threshold_witness :
    breakageAfter.incidents = breakageStart.incidents ++ [thirdIncident] ∧
    thirdIncident.asset_id = 1 ∧
    thirdIncident.incident_date = incidentNow ∧
    asset_flag breakageAfter 1
      = some (is_flagged
          (qualifying_incident_count breakageAfter.incidents 1
            windowStart180)) ∧
    (qualifying_incident_count breakageAfter.incidents 1 windowStart180 = 2 →
      asset_flag breakageAfter 1 = some false) ∧
    (3 ≤ qualifying_incident_count breakageAfter.incidents 1 windowStart180 →
      asset_flag breakageAfter 1 = some true) ∧
    (∀ (l : List DamageIncident) (old : DamageIncident),
      dtLt old.incident_date windowStart180 = true →
      qualifying_incident_count (l ++ [old]) 1 windowStart180
        = qualifying_incident_count l 1 windowStart180) ∧
    (∀ u r1, find_user_for_checked_out_to breakageStart.users none = some u →
      u.id ≠ 0 →
      breakageStart.users.find? (fun r => r.id == u.id) = some r1 →
      user_flag breakageAfter u.id
        = some (is_flagged
            (user_qualifying_count breakageAfter.incidents u.id
              windowStart180))) :=
  c6_incident_threshold breakageStart incidentNow windowStart180 1 none
    ("checkin") ("") none thirdIncident breakageAfter ⟨1, false⟩
    (by decide) (by decide) (by decide) (by decide)

/-- C9 counterexample: a manual snapshot build failure (reports.py lines
537-541) writes no SnapshotRunLog row at all — the handler flashes the
error and redirects, leaving the run-log table empty — so manual build
failures are not durably recorded, contrary to the claim. -/
theorem c9_counterexample :
    (generate_audit_snapshot_download twoChannelSettings c9_default_effects
        (.error ("boom")) [] ("audit_snapshot_x.zip") 1).logs = [] ∧
    (generate_audit_snapshot_download twoChannelSettings c9_default_effects
        (.error ("boom")) [] ("audit_snapshot_x.zip") 1).downloaded = none ∧
    (generate_audit_snapshot_download twoChannelSettings c9_default_effects
        (.error ("boom")) [] ("audit_snapshot_x.zip") 1).flashes
      = [((("Failed to build audit snapshot: ") ++ ("boom")), ("danger"))] :=
  ⟨rfl, rfl, rfl⟩

/-- C9 (amended): failures ARE durably recorded on the scheduled path and
on the manual email path, but NOT on the manual build path. A scheduled
build failure and a scheduled send failure each write a `failed` row
(manifest digest sixty-four zeros, message the exception text), deliver
nothing and leave `last_run_at` untouched; a manual email send failure
writes a `failed` row with the exception message; a manual build failure
writes no row and only flashes. -/
theorem c9_failure_logging (settings : List (String × Option String))
    (eff : ArtifactEffects) (e : String) (he : e ≠ "")
    (zb : List Nat) (sha : String) (man : Manifest)
    (s : AuditSnapshotSchedule) (now ws : PyDateTime)
    (logs : List AuditSnapshotLogRow) (filename email_to : String)
    (uid : Nat)
    (hdue : schedule_due (some s) now = .due ws) :
    (run_scheduled_snapshot settings eff (.error e) (.ok ()) (some s) now logs
      = ⟨false, e,
         logs ++ [{ trigger_type := ("scheduled")
                    delivery_method := ("email")
                    recipient_email := strOrNone s.recipient_email
                    zip_filename := snapshot_filename now
                    manifest_sha256 := String.mk (List.replicate 64 '0')
                    status := ("failed")
                    message := some e
                    created_by := none }],
         some s, false⟩) ∧
    (run_scheduled_snapshot settings eff (.ok (zb, sha, man)) (.error e)
        (some s) now logs
      = ⟨false, e,
         logs ++ [{ trigger_type := ("scheduled")
                    delivery_method := ("email")
                    recipient_email := strOrNone s.recipient_email
                    zip_filename := snapshot_filename now
                    manifest_sha256 := String.mk (List.replicate 64 '0')
                    status := ("failed")
                    message := some e
                    created_by := none }],
         some s, false⟩) ∧
    ((generate_audit_snapshot_email settings eff (.ok (zb, sha, man))
        (.error e) logs filename email_to uid).logs
      = logs ++ [{ trigger_type := ("manual")
                   delivery_method := ("email")
                   recipient_email := strOrNone email_to
                   zip_filename := filename
                   manifest_sha256 := sha
                   status := ("failed")
                   message := some e
                   created_by := some uid }]) ∧
    (generate_audit_snapshot_download settings eff (.error e) logs filename uid
      = ⟨logs, none,
         [((("Failed to build audit snapshot: ") ++ e), ("danger"))]⟩) := by
  have hse : strOrNone e = some e := by
    unfold strOrNone
    rw [if_neg he]
  refine ⟨?_, ?_, ?_, rfl⟩
  · have h1 : run_scheduled_snapshot settings eff (.error e) (.ok ())
        (some s) now logs
        = ⟨false, e,
           create_snapshot_log logs ("scheduled") ("email")
             (snapshot_filename now) (String.mk (List.replicate 64 '0'))
             ("failed") e s.recipient_email none,
           some s, false⟩ := by
      unfold run_scheduled_snapshot
      rw [hdue]
      rfl
    rw [h1]
    unfold create_snapshot_log
    rw [hse]
  · have h2 : run_scheduled_snapshot settings eff (.ok (zb, sha, man))
        (.error e) (some s) now logs
        = ⟨false, e,
           create_snapshot_log logs ("scheduled") ("email")
             (snapshot_filename now) (String.mk (List.replicate 64 '0'))
             ("failed") e s.recipient_email none,
           some s, false⟩ := by
      unfold run_scheduled_snapshot
      rw [hdue]
      rfl
    rw [h2]
    unfold create_snapshot_log
    rw [hse]
  · have h3 : (generate_audit_snapshot_email settings eff (.ok (zb, sha, man))
        (.error e) logs filename email_to uid).logs
        = create_snapshot_log logs ("manual") ("email") filename sha
          ("failed") e email_to (some uid) := rfl
    rw [h3]
    unfold create_snapshot_log
    rw [hse]

/-- C9 witness: the amended failure-recording theorem instantiated at the
concrete daily schedule and poll instant of the C4 scenario, with a
concrete exception text. -/
theorem c9_failure_logging_witness :
    (run_scheduled_snapshot twoChannelSettings c9_default_effects
        (.error ("boom")) (.ok ()) (some dailySchedule) pollInstant []
      = ⟨false, ("boom"),
         [{ trigger_type := ("scheduled")
            delivery_method := ("email")
            recipient_email := strOrNone dailySchedule.recipient_email
            zip_filename := snapshot_filename pollInstant
            manifest_sha256 := String.mk (List.replicate 64 '0')
            status := ("failed")
            message := some ("boom")
            created_by := none }],
         some dailySchedule, false⟩) ∧
    (run_scheduled_snapshot twoChannelSettings c9_default_effects
        (.ok ([], (""), ⟨(""), [], none⟩)) (.error ("boom"))
        (some dailySchedule) pollInstant []
      = ⟨false, ("boom"),
         [{ trigger_type := ("scheduled")
            delivery_method := ("email")
            recipient_email := strOrNone dailySchedule.recipient_email
            zip_filename := snapshot_filename pollInstant
            manifest_sha256 := String.mk (List.replicate 64 '0')
            status := ("failed")
            message := some ("boom")
            created_by := none }],
         some dailySchedule, false⟩) ∧
    ((generate_audit_snapshot_email twoChannelSettings c9_default_effects
        (.ok ([], (""), ⟨(""), [], none⟩)) (.error ("boom")) []
        ("audit_snapshot_x.zip") ("ops@example.com") 1).logs
      = [{ trigger_type := ("manual")
           delivery_method := ("email")
           recipient_email := strOrNone ("ops@example.com")
           zip_filename := ("audit_snapshot_x.zip")
           manifest_sha256 := ("")
           status := ("failed")
           message := some ("boom")
           created_by := some 1 }]) ∧
    (generate_audit_snapshot_download twoChannelSettings c9_default_effects
        (.error ("boom")) [] ("audit_snapshot_x.zip") 1
      = ⟨[], none,
         [((("Failed to build audit snapshot: ") ++ ("boom")), ("danger"))]⟩) :=
  c9_failure_logging twoChannelSettings c9_default_effects ("boom")
    (by decide) [] ("") ⟨(""), [], none⟩ dailySchedule pollInstant
    dailyWindow [] ("audit_snapshot_x.zip") ("ops@example.com") 1
    (by decide)

end Deskly

